import Mathlib

/-!
# GpuRamDrive: the proxy server core of `GpuRamDrive/GpuRamDrive.cpp`

A shallow embedding of the `GPURamDrive` class: the memory backend
(`GpuAllocateRam`, `GpuWrite`, `GpuRead`), the shared-memory channel
(`ImdiskSetupComm`, `Close`), the protocol loop (`ImdiskHandleComm`) and the
lifecycle controller (`CreateRamDevice`, `ImdiskMountDevice`,
`ImdiskUnmountDevice`, `IsMounted`).

Conventions.
* Pointers and OS handles are natural numbers, `0` being `NULL` / `nullptr`.
* Every result of a call into the operating system, the ImDisk driver or a
  compute API is an input of the model (an oracle record), never a choice of
  the model.
* Calls with an effect outside the object are recorded in a trace of `Event`s.
* Byte memory is a function from byte index to byte; `memcpy` is pointwise.
-/

namespace GpuRamDrive

/-! ## Build variant and external constants -/

/-- The three values the preprocessor symbol `GPU_API` is compared with. The
symbol is defined in `GpuRamDrive.h`, which is not part of the sources, so the
variant is a parameter of every function that branches on it. -/
inductive GpuApi
  | HOSTMEM
  | CUDA
  | OPENCL
  deriving DecidableEq

/-- Constants of `imdisk/imdproxy.h`, `imdisk/imdisk.h` and `errno.h` used by
the class. These headers are not part of the sources, so the values are
parameters. `case` labels of one `switch` are pairwise distinct (the program
would not compile otherwise), which `cases_distinct` records. -/
structure ImdiskConsts where
  IMDPROXY_REQ_INFO : Nat
  IMDPROXY_REQ_READ : Nat
  IMDPROXY_REQ_WRITE : Nat
  IMDPROXY_REQ_CLOSE : Nat
  ENODEV : Nat
  IMDPROXY_HEADER_SIZE : Nat
  IMDISK_AUTO_DEVICE_NUMBER : Nat
  cases_distinct :
    [IMDPROXY_REQ_INFO, IMDPROXY_REQ_READ, IMDPROXY_REQ_WRITE, IMDPROXY_REQ_CLOSE].Nodup

/-- The values these constants have in the ImDisk headers and in `errno.h`;
used for concrete evaluations only. -/
def imdisk : ImdiskConsts where
  IMDPROXY_REQ_INFO := 1
  IMDPROXY_REQ_READ := 2
  IMDPROXY_REQ_WRITE := 3
  IMDPROXY_REQ_CLOSE := 5
  ENODEV := 19
  IMDPROXY_HEADER_SIZE := 4096
  IMDISK_AUTO_DEVICE_NUMBER := 4294967295
  cases_distinct := by decide

/-! ## Controller state -/

/-- The enumeration `EGpuRamDriveType`. -/
inductive EGpuRamDriveType
  | HD
  | FD
  | CD
  | RAW
  deriving DecidableEq

/-- The member `m_GpuThread` (a `std::thread`). `none`: no thread is attached,
`joinable()` is false. `serving`: the worker is attached and has not left its
thread function. `finished`: the thread function has returned and the thread
has not been joined yet, `joinable()` is still true. -/
inductive Worker
  | none
  | serving
  | finished
  deriving DecidableEq

/-- The result of `std::thread::joinable()`. -/
def Worker.joinable : Worker → Bool
  | Worker.none => false
  | Worker.serving => true
  | Worker.finished => true

/-- The data members of `GPURamDrive` that the modelled member functions read
or assign. `m_StateChangeCallback` records whether the `std::function` holds a
callable. The members `m_ImdDrive`, `m_Devices`, `config` and `debugTools` are
left out: the modelled functions only log through them or pass them on. -/
structure GPURamDrive where
  m_DriveType : EGpuRamDriveType
  m_DriveRemovable : Bool
  m_MemSize : Nat
  m_Context : Nat
  m_Queue : Nat
  m_GpuMem : Nat
  m_pBuff : Nat
  m_ShmHandle : Nat
  m_ShmMutexSrv : Nat
  m_ShmReqEvent : Nat
  m_ShmRespEvent : Nat
  m_ShmView : Nat
  m_clPlatformId : Nat
  m_clDeviceId : Nat
  m_BufSize : Nat
  m_BufStart : Nat
  m_cuCtx : Nat
  m_cuDevPtr : Nat
  m_ServiceName : String
  m_MountPoint : String
  m_DeviceId : Nat
  m_TempFolderParam : Bool
  m_StateChangeCallback : Bool
  m_GpuThread : Worker
  deriving DecidableEq

/-- The constructor `GPURamDrive::GPURamDrive()`. `m_DeviceId` and
`m_TempFolderParam` have no initialiser in the constructor, so their initial
values are parameters. -/
def GPURamDrive.new (uninitDeviceId : Nat) (uninitTempFolder : Bool) : GPURamDrive where
  m_DriveType := EGpuRamDriveType.HD
  m_DriveRemovable := false
  m_MemSize := 0
  m_Context := 0
  m_Queue := 0
  m_GpuMem := 0
  m_pBuff := 0
  m_ShmHandle := 0
  m_ShmMutexSrv := 0
  m_ShmReqEvent := 0
  m_ShmRespEvent := 0
  m_ShmView := 0
  m_clPlatformId := 0
  m_clDeviceId := 0
  m_BufSize := 0
  m_BufStart := 0
  m_cuCtx := 0
  m_cuDevPtr := 0
  m_ServiceName := ""
  m_MountPoint := ""
  m_DeviceId := uninitDeviceId
  m_TempFolderParam := uninitTempFolder
  m_StateChangeCallback := false
  m_GpuThread := Worker.none

/-- The member function `SetStateChangeCallback`; `callable` says whether the
`std::function` passed in holds a callable. -/
def SetStateChangeCallback (s : GPURamDrive) (callable : Bool) : GPURamDrive :=
  { s with m_StateChangeCallback := callable }

/-! ## Trace of external calls -/

/-- Calls whose effect lies outside the object. A call that creates a resource
carries the pointer or handle it returned (`0` when it failed). -/
inductive Event
  | stateChange
  | getContext (dev : Nat)
  | removeContext (dev : Nat)
  | cuCtxPushCurrent (ctx : Nat)
  | cuCtxPopCurrent
  | cuMemAlloc (size : Nat) (result : Nat)
  | cuMemFree (ptr : Nat)
  | cuMemcpyHtoD (dst : Nat) (size : Nat)
  | cuMemcpyDtoH (src : Nat) (size : Nat)
  | newArray (size : Nat) (result : Nat)
  | deleteArray (ptr : Nat)
  | clCreateContext (dev : Nat) (result : Nat)
  | clCreateCommandQueue (ctx : Nat) (dev : Nat) (result : Nat)
  | clGetDeviceInfo (dev : Nat)
  | clCreateBuffer (ctx : Nat) (hostPtrFlag : Bool) (size : Nat) (result : Nat)
  | clEnqueueWriteBuffer (queue : Nat) (mem : Nat) (offset : Nat) (size : Nat)
  | clEnqueueReadBuffer (queue : Nat) (mem : Nat) (offset : Nat) (size : Nat)
  | clFlush (queue : Nat)
  | clFinish (queue : Nat)
  | clReleaseMemObject (mem : Nat)
  | clReleaseCommandQueue (queue : Nat)
  | clReleaseContext (ctx : Nat)
  | CreateFileMapping (name : String) (size : Nat) (result : Nat)
  | MapViewOfFile (h : Nat) (result : Nat)
  | VirtualQuery (view : Nat)
  | CreateMutex (name : String) (result : Nat)
  | CreateEvent (name : String) (result : Nat)
  | WaitForSingleObject (h : Nat)
  | SetEvent (h : Nat)
  | UnmapViewOfFile (view : Nat)
  | CloseHandle (h : Nat)
  | threadStart
  | threadJoin
  | threadDetach
  | GpuAllocateRam
  | ImdiskSetupComm (ServiceName : String)
  | GpuRead (size : Nat) (offset : Int)
  | GpuWrite (size : Nat) (offset : Int)
  | ImDiskCreateDeviceEx (ServiceName : String) (MountPoint : String)
  | ImDiskForceRemoveDevice (DeviceId : Nat)
  | restoreOriginalTempEnvironment
  | setMountTempEnvironment (MountPoint : String)
  | formatVolume (MountPoint : String) (FormatParam : String)
  | SetVolumeLabel (MountPoint : String) (LabelParam : String)
  deriving DecidableEq

/-- The resources the class acquires and hands back itself: the mapped view,
the handles of the mapping, the mutex and the two events, the host buffer,
CUDA device memory, and the OpenCL buffer, queue and context. -/
inductive Resource
  | view (p : Nat)
  | handle (h : Nat)
  | hostBuffer (p : Nat)
  | deviceMemory (p : Nat)
  | clMem (m : Nat)
  | clQueue (q : Nat)
  | clContext (c : Nat)
  deriving DecidableEq

/-- The resource `r` if the pointer or handle `p` a creating call returned is
not null. -/
def Resource.ifSet (p : Nat) (r : Resource) : Option Resource :=
  if p ≠ 0 then some r else none

/-- The resource a call creates, if it creates one. -/
def Event.acquired : Event → Option Resource
  | Event.MapViewOfFile _ p => Resource.ifSet p (Resource.view p)
  | Event.CreateFileMapping _ _ h => Resource.ifSet h (Resource.handle h)
  | Event.CreateMutex _ h => Resource.ifSet h (Resource.handle h)
  | Event.CreateEvent _ h => Resource.ifSet h (Resource.handle h)
  | Event.newArray _ p => Resource.ifSet p (Resource.hostBuffer p)
  | Event.cuMemAlloc _ p => Resource.ifSet p (Resource.deviceMemory p)
  | Event.clCreateBuffer _ _ _ m => Resource.ifSet m (Resource.clMem m)
  | Event.clCreateCommandQueue _ _ q => Resource.ifSet q (Resource.clQueue q)
  | Event.clCreateContext _ c => Resource.ifSet c (Resource.clContext c)
  | _ => none

/-- The resource a call hands back, if it hands one back: unmapping the view,
closing a handle, freeing the host buffer or device memory, releasing an
OpenCL object. `CudaHandler::getContext` and `CudaHandler::removeContext` are
calls into a class that is not part of the sources; what they create or
release cannot be read from the sources, so they are recorded as calls and
count neither as acquiring nor as releasing. -/
def Event.released : Event → Option Resource
  | Event.UnmapViewOfFile p => some (Resource.view p)
  | Event.CloseHandle h => some (Resource.handle h)
  | Event.deleteArray p => some (Resource.hostBuffer p)
  | Event.cuMemFree p => some (Resource.deviceMemory p)
  | Event.clReleaseMemObject m => some (Resource.clMem m)
  | Event.clReleaseCommandQueue q => some (Resource.clQueue q)
  | Event.clReleaseContext c => some (Resource.clContext c)
  | _ => none

/-- How often the resource `r` is acquired in the trace `t`. -/
def acquisitions (r : Resource) (t : List Event) : Nat :=
  t.countP (fun e => decide (e.acquired = some r))

/-- How often the resource `r` is handed back in the trace `t`. -/
def releases (r : Resource) (t : List Event) : Nat :=
  t.countP (fun e => decide (e.released = some r))

/-- The events that are a backend transfer requested by the protocol loop. -/
def Event.isBackendCall : Event → Bool
  | Event.GpuRead _ _ => true
  | Event.GpuWrite _ _ => true
  | _ => false

/-- The statement `if (m_StateChangeCallback) m_StateChangeCallback();`. -/
def fireStateChange (s : GPURamDrive) : List Event :=
  if s.m_StateChangeCallback then [Event.stateChange] else []

/-! ## Byte memory -/

/-- One byte. -/
abbrev Byte := Fin 256

/-- Byte memory relative to a base pointer: index to byte. -/
abbrev Mem := Nat → Byte

/-- The library function `memcpy(dst + dstOff, src + srcOff, size)` on two
distinct regions. -/
def memcpy (dst : Mem) (dstOff : Nat) (src : Mem) (srcOff : Nat) (size : Nat) : Mem :=
  fun i => if dstOff ≤ i ∧ i < dstOff + size then src (srcOff + (i - dstOff)) else dst i

/-- A memory whose first bytes are those of `b` (zero afterwards). -/
def Mem.ofList (b : List Byte) : Mem :=
  fun i => b.getD i 0

/-- The first `n` bytes of a memory. -/
def Mem.toList (m : Mem) (n : Nat) : List Byte :=
  (List.range n).map m

/-- Conversion of an unsigned 64-bit value to the signed 64-bit type
`off_t_64` of the backend functions' `offset` parameter. -/
def toOff64 (x : Nat) : Int :=
  if x % 2 ^ 64 < 2 ^ 63 then ((x % 2 ^ 64 : Nat) : Int) else ((x % 2 ^ 64 : Nat) : Int) - 2 ^ 64

/-- Conversion of an `off_t_64` to an unsigned 64-bit value, as in
`(size_t)offset` and `(CUdeviceptr)offset`. -/
def toU64 (x : Int) : Nat :=
  (x % 2 ^ 64).toNat

/-! ## Memory backend -/

/-- What a backend transfer leaves behind: the contents of the backend
allocation, the contents of the memory `buf` points to, the returned byte
count and the calls made. -/
structure BackendRun where
  store : Mem
  buf : Mem
  ret : Nat
  trace : List Event

/-- Whether `size` bytes at `offset` lie inside the host allocation of
`m_MemSize` bytes at `m_pBuff`. -/
def hostInBounds (s : GPURamDrive) (size : Nat) (offset : Int) : Prop :=
  s.m_pBuff ≠ 0 ∧ 0 ≤ offset ∧ offset + (size : Int) ≤ (s.m_MemSize : Int)

instance (s : GPURamDrive) (size : Nat) (offset : Int) : Decidable (hostInBounds s size offset) := by
  unfold hostInBounds
  infer_instance

/-- The member function `GpuWrite(buf, size, offset)`. `store` is the contents of
the backend allocation, `buf` the memory the pointer `buf` refers to, `devOk`
whether the device copy call reports success (not consulted for host memory).
The function itself checks nothing: for host memory the result is `none`
exactly when the `memcpy` would leave the allocation, which C++ leaves
undefined. In the CUDA variant `cuCtxPopCurrent(&m_cuCtx)` stores the context
the preceding `cuCtxPushCurrent(m_cuCtx)` pushed, so no member changes. -/
def GpuWrite (api : GpuApi) (s : GPURamDrive) (store : Mem) (buf : Mem) (size : Nat)
    (offset : Int) (devOk : Bool) : Option BackendRun :=
  match api with
  | GpuApi.HOSTMEM =>
    if hostInBounds s size offset then
      some ⟨memcpy store offset.toNat buf 0 size, buf, size, []⟩
    else none
  | GpuApi.CUDA =>
    let tr := [Event.cuCtxPushCurrent s.m_cuCtx,
      Event.cuMemcpyHtoD (s.m_cuDevPtr + toU64 offset) size, Event.cuCtxPopCurrent]
    if devOk then some ⟨memcpy store (toU64 offset) buf 0 size, buf, size, tr⟩
    else some ⟨store, buf, 0, tr⟩
  | GpuApi.OPENCL =>
    let tr := [Event.clEnqueueWriteBuffer s.m_Queue s.m_GpuMem (toU64 offset) size]
    if devOk then some ⟨memcpy store (toU64 offset) buf 0 size, buf, size, tr⟩
    else some ⟨store, buf, 0, tr⟩

/-- The member function `GpuRead(buf, size, offset)`; parameters as for
`GpuWrite`. -/
def GpuRead (api : GpuApi) (s : GPURamDrive) (store : Mem) (buf : Mem) (size : Nat)
    (offset : Int) (devOk : Bool) : Option BackendRun :=
  match api with
  | GpuApi.HOSTMEM =>
    if hostInBounds s size offset then
      some ⟨store, memcpy buf 0 store offset.toNat size, size, []⟩
    else none
  | GpuApi.CUDA =>
    let tr := [Event.cuCtxPushCurrent s.m_cuCtx,
      Event.cuMemcpyDtoH (s.m_cuDevPtr + toU64 offset) size, Event.cuCtxPopCurrent]
    if devOk then some ⟨store, memcpy buf 0 store (toU64 offset) size, size, tr⟩
    else some ⟨store, buf, 0, tr⟩
  | GpuApi.OPENCL =>
    let tr := [Event.clEnqueueReadBuffer s.m_Queue s.m_GpuMem (toU64 offset) size]
    if devOk then some ⟨store, memcpy buf 0 store (toU64 offset) size, size, tr⟩
    else some ⟨store, buf, 0, tr⟩

/-! ## Shared header and protocol loop -/

/-- Modelled from the spec: the fixed-layout record at the base of the shared
view. The record types `IMDPROXY_READ_REQ`, `IMDPROXY_READ_RESP` and
`IMDPROXY_INFO_RESP`, to which `ImdiskHandleComm` casts `m_ShmView`, are
declared in `imdisk/imdproxy.h`, which is not part of the sources. They are
three views of the same memory (section 6: "same memory, reinterpreted"), each
a sequence of fields: word 0 is `request_code`, `errorno` or `file_size`;
word 1 is the request `offset`, the response `length` or `req_alignment`;
word 2 is the request `length` or `flags`. -/
structure ShmHeader where
  w0 : Nat
  w1 : Nat
  w2 : Nat
  deriving DecidableEq

/-- Field `request_code` of the view `IMDPROXY_READ_REQ`. -/
def ShmHeader.request_code (h : ShmHeader) : Nat := h.w0
/-- Field `offset` of the view `IMDPROXY_READ_REQ`. -/
def ShmHeader.req_offset (h : ShmHeader) : Nat := h.w1
/-- Field `length` of the view `IMDPROXY_READ_REQ`. -/
def ShmHeader.req_length (h : ShmHeader) : Nat := h.w2
/-- Field `errorno` of the view `IMDPROXY_READ_RESP`. -/
def ShmHeader.errorno (h : ShmHeader) : Nat := h.w0
/-- Field `length` of the view `IMDPROXY_READ_RESP`. -/
def ShmHeader.resp_length (h : ShmHeader) : Nat := h.w1
/-- Field `file_size` of the view `IMDPROXY_INFO_RESP`. -/
def ShmHeader.file_size (h : ShmHeader) : Nat := h.w0
/-- Field `req_alignment` of the view `IMDPROXY_INFO_RESP`. -/
def ShmHeader.req_alignment (h : ShmHeader) : Nat := h.w1
/-- Field `flags` of the view `IMDPROXY_INFO_RESP`. -/
def ShmHeader.flags (h : ShmHeader) : Nat := h.w2

/-- What the outside world supplies to one turn of the loop: the result of the
wait on the request event, the contents of the shared region (header and data
buffer) found when the wait returns, whether a device copy reports success,
and the result of `SetEvent` on the response event. -/
structure Round where
  waitOk : Bool
  header : ShmHeader
  buffer : Mem
  devOk : Bool
  setEventOk : Bool

/-- A request round with the given header words and a zeroed data buffer, all
external calls succeeding. -/
def Round.request (code offset length : Nat) : Round :=
  ⟨true, ⟨code, offset, length⟩, fun _ => 0, true, true⟩

/-- The round `r` with the request's `length` field (word 2) set to `l`. -/
def Round.withLength (r : Round) (l : Nat) : Round :=
  { r with header := { r.header with w2 := l } }

/-- The expression `Req->length < m_BufSize ? Req->length : m_BufSize`. -/
def clampLength (length bufSize : Nat) : Nat :=
  if length < bufSize then length else bufSize

/-- The state after one turn of the loop: backend contents, shared header and
data buffer, the calls made, whether the loop goes on to wait again
(`again = false`: `ImdiskHandleComm` returns), and whether the turn stayed
within defined behaviour (`defined = false`: a host-memory transfer left the
allocation, see `GpuWrite`; the contents recorded then are those before the
transfer and carry no meaning). -/
structure StepRun where
  backend : Mem
  header : ShmHeader
  buffer : Mem
  trace : List Event
  again : Bool
  defined : Bool

/-- The tail of the loop body: `if (!SetEvent(m_ShmRespEvent)) return;`. -/
def signalResponse (s : GPURamDrive) (r : Round) (store : Mem) (h : ShmHeader) (buf : Mem)
    (tr : List Event) : StepRun :=
  ⟨store, h, buf, tr ++ [Event.SetEvent s.m_ShmRespEvent], r.setEventOk, true⟩

/-- One turn of the `for (;;)` loop of `ImdiskHandleComm`: the wait, the
`switch` on `Req->request_code`, the signalling of the response. `Req` and
`Resp` point to the same memory, so `Resp->errorno = 0` overwrites word 0
before the request's `length` and `offset` are read from words 2 and 1, and
the returned byte count then overwrites word 1. -/
def handleRequest (api : GpuApi) (K : ImdiskConsts) (s : GPURamDrive) (store : Mem)
    (r : Round) : StepRun :=
  let wait := [Event.WaitForSingleObject s.m_ShmReqEvent]
  if !r.waitOk then
    ⟨store, r.header, r.buffer, wait, false, true⟩
  else if r.header.request_code = K.IMDPROXY_REQ_INFO then
    signalResponse s r store ⟨s.m_MemSize, 1, 0⟩ r.buffer wait
  else if r.header.request_code = K.IMDPROXY_REQ_READ then
    let h1 : ShmHeader := { r.header with w0 := 0 }
    let size := clampLength h1.req_length s.m_BufSize
    let offset := toOff64 h1.req_offset
    match GpuRead api s store r.buffer size offset r.devOk with
    | none => ⟨store, h1, r.buffer, wait ++ [Event.GpuRead size offset], false, false⟩
    | some b =>
      signalResponse s r b.store { h1 with w1 := b.ret } b.buf
        (wait ++ Event.GpuRead size offset :: b.trace)
  else if r.header.request_code = K.IMDPROXY_REQ_WRITE then
    let h1 : ShmHeader := { r.header with w0 := 0 }
    let size := clampLength h1.req_length s.m_BufSize
    let offset := toOff64 h1.req_offset
    match GpuWrite api s store r.buffer size offset r.devOk with
    | none => ⟨store, h1, r.buffer, wait ++ [Event.GpuWrite size offset], false, false⟩
    | some b =>
      signalResponse s r b.store { h1 with w1 := b.ret } b.buf
        (wait ++ Event.GpuWrite size offset :: b.trace)
  else if r.header.request_code = K.IMDPROXY_REQ_CLOSE then
    ⟨store, r.header, r.buffer, wait, false, true⟩
  else
    signalResponse s r store { r.header with w0 := K.ENODEV } r.buffer wait

/-- How a member function ends: it returns, or an exception leaves it. -/
inductive Outcome
  | returned
  | raised (what : String)
  deriving DecidableEq

/-- Whether an exception left the call. -/
def Outcome.isRaised : Outcome → Bool
  | Outcome.returned => false
  | Outcome.raised _ => true

/-- The object after a call, the external calls made, and how the call ended. -/
structure Run where
  state : GPURamDrive
  trace : List Event
  outcome : Outcome
  deriving DecidableEq

/-- The event `e` if the pointer or handle `p` is not null: the statement
`if (p) release(p);`. -/
def whenSet (p : Nat) (e : Event) : List Event :=
  if p ≠ 0 then [e] else []

/-- The member function `Close`. In the CUDA variant
`cuCtxPopCurrent(&m_cuCtx)` stores the context popped, which is the one the
preceding `cuCtxPushCurrent(m_cuCtx)` pushed, so the member keeps its value. -/
def Close (api : GpuApi) (s : GPURamDrive) : Run :=
  let shm :=
    whenSet s.m_ShmView (Event.UnmapViewOfFile s.m_ShmView)
    ++ whenSet s.m_ShmHandle (Event.CloseHandle s.m_ShmHandle)
    ++ whenSet s.m_ShmMutexSrv (Event.CloseHandle s.m_ShmMutexSrv)
    ++ whenSet s.m_ShmReqEvent (Event.CloseHandle s.m_ShmReqEvent)
    ++ whenSet s.m_ShmRespEvent (Event.CloseHandle s.m_ShmRespEvent)
    ++ whenSet s.m_pBuff (Event.deleteArray s.m_pBuff)
  let cl :=
    if api = GpuApi.OPENCL then
      whenSet s.m_Queue (Event.clFlush s.m_Queue)
      ++ whenSet s.m_Queue (Event.clFinish s.m_Queue)
      ++ whenSet s.m_GpuMem (Event.clReleaseMemObject s.m_GpuMem)
      ++ whenSet s.m_Queue (Event.clReleaseCommandQueue s.m_Queue)
      ++ whenSet s.m_Context (Event.clReleaseContext s.m_Context)
    else []
  let s1 : GPURamDrive :=
    { s with
      m_ShmView := 0, m_ShmHandle := 0, m_ShmMutexSrv := 0, m_ShmReqEvent := 0,
      m_ShmRespEvent := 0, m_pBuff := 0, m_GpuMem := 0, m_Queue := 0, m_Context := 0,
      m_MemSize := 0 }
  let cu :=
    if api = GpuApi.CUDA then
      [Event.cuCtxPushCurrent s1.m_cuCtx]
      ++ whenSet s1.m_cuDevPtr (Event.cuMemFree s1.m_cuDevPtr)
      ++ [Event.removeContext s1.m_clDeviceId, Event.cuCtxPopCurrent]
    else []
  let s2 : GPURamDrive := if api = GpuApi.CUDA then { s1 with m_cuDevPtr := 0 } else s1
  ⟨s2, shm ++ cl ++ cu ++ fireStateChange s2, Outcome.returned⟩

/-- The member function `IsMounted`. -/
def IsMounted (s : GPURamDrive) : Bool :=
  s.m_MountPoint.length != 0 && s.m_ShmView != 0

/-- Results of the allocation calls of `GpuAllocateRam`. `hostBuf` is the
pointer `new char[m_MemSize]` yields, `0` standing for `std::bad_alloc` being
thrown. `cuAllocOk` says whether `cuMemAlloc` returned `CUDA_SUCCESS`,
`cuOutOfMemory` whether its result was `CUDA_ERROR_OUT_OF_MEMORY`. `clInfoOk`
and `clVendorOk` say whether the two `clGetDeviceInfo` calls returned
`CL_SUCCESS`, `vendorIsAmd` whether the vendor string contains
"Advanced Micro Devices". -/
structure AllocOracle where
  hostBuf : Nat
  cuAllocOk : Bool
  cuOutOfMemory : Bool
  cuDevPtr : Nat
  clContext : Nat
  clQueue : Nat
  clInfoOk : Bool
  clVendorOk : Bool
  vendorIsAmd : Bool
  clGpuMem : Nat
  deriving DecidableEq

/-- The member function `GpuAllocateRam`. The numeric suffix the source appends
to its exception messages is not modelled; a failing `cuMemAlloc` leaves
`m_cuDevPtr` as it was. -/
def GpuAllocateRam (api : GpuApi) (s : GPURamDrive) (o : AllocOracle) : Run :=
  match api with
  | GpuApi.HOSTMEM =>
    if o.hostBuf = 0 then ⟨s, [Event.newArray s.m_MemSize 0], Outcome.raised "bad allocation"⟩
    else
      ⟨{ s with m_pBuff := o.hostBuf }, [Event.newArray s.m_MemSize o.hostBuf], Outcome.returned⟩
  | GpuApi.CUDA =>
    let tr := fun p : Nat =>
      [Event.cuCtxPushCurrent s.m_cuCtx, Event.cuMemAlloc s.m_MemSize p, Event.cuCtxPopCurrent]
    if !o.cuAllocOk then
      if o.cuOutOfMemory then ⟨s, tr 0, Outcome.raised "Not enough memory to alloc, free: "⟩
      else ⟨s, tr 0, Outcome.raised "Unable to allocate memory on device, error code: "⟩
    else ⟨{ s with m_cuDevPtr := o.cuDevPtr }, tr o.cuDevPtr, Outcome.returned⟩
  | GpuApi.OPENCL =>
    let s1 : GPURamDrive := { s with m_Context := o.clContext }
    let t1 := [Event.clCreateContext s.m_clDeviceId o.clContext]
    if s1.m_Context = 0 then ⟨s1, t1, Outcome.raised "Unable to create context: "⟩
    else
      let s2 : GPURamDrive := { s1 with m_Queue := o.clQueue }
      let t2 := t1 ++ [Event.clCreateCommandQueue s1.m_Context s1.m_clDeviceId o.clQueue]
      if s2.m_Queue = 0 then ⟨s2, t2, Outcome.raised "Unable to create command queue: "⟩
      else
        let t3 := t2 ++ [Event.clGetDeviceInfo s2.m_clDeviceId]
        if !o.clInfoOk then ⟨s2, t3, Outcome.raised "Unable to allocate memory: "⟩
        else
          let t4 := t3 ++ [Event.clGetDeviceInfo s2.m_clDeviceId]
          if !o.clVendorOk then ⟨s2, t4, Outcome.raised "Unable to get platform: "⟩
          else
            let s3 : GPURamDrive := { s2 with m_GpuMem := o.clGpuMem }
            let t5 :=
              t4 ++ [Event.clCreateBuffer s2.m_Context (!o.vendorIsAmd) s2.m_MemSize o.clGpuMem]
            if s3.m_GpuMem = 0 then ⟨s3, t5, Outcome.raised "Unable to create memory buffer: "⟩
            else ⟨s3, t5, Outcome.returned⟩

/-- Results of the operating-system calls of `ImdiskSetupComm`: the handle
returned by `CreateFileMapping`, whether `GetLastError()` then is
`ERROR_ALREADY_EXISTS`, the pointer returned by `MapViewOfFile`, whether
`VirtualQuery` succeeds, the handle returned by `CreateMutex`, whether the wait
on the mutex returns `WAIT_OBJECT_0`, and the handles returned by the two
`CreateEvent` calls. -/
structure SetupOracle where
  mapping : Nat
  alreadyExists : Bool
  view : Nat
  queryOk : Bool
  mutex : Nat
  mutexAcquired : Bool
  reqEvent : Nat
  respEvent : Nat
  deriving DecidableEq

/-- The member function `ImdiskSetupComm`. -/
def ImdiskSetupComm (K : ImdiskConsts) (s : GPURamDrive) (ServiceName : String)
    (o : SetupOracle) : Run :=
  let sPrefix := "Global\\"
  let s0 : GPURamDrive := { s with m_BufSize := 4 <<< 20 }
  let MapSize := s0.m_BufSize + K.IMDPROXY_HEADER_SIZE
  let s1 : GPURamDrive := { s0 with m_ShmHandle := o.mapping }
  let t1 := [Event.CreateFileMapping (sPrefix ++ ServiceName) MapSize o.mapping]
  if s1.m_ShmHandle = 0 then ⟨s1, t1, Outcome.raised "Unable to create file mapping: "⟩
  else if o.alreadyExists then
    ⟨s1, t1, Outcome.raised
      "A service with this name is already running or is still being used by ImDisk"⟩
  else
    let s2 : GPURamDrive := { s1 with m_ShmView := o.view }
    let t2 := t1 ++ [Event.MapViewOfFile s1.m_ShmHandle o.view]
    if s2.m_ShmView = 0 then ⟨s2, t2, Outcome.raised "Unable to map view of shared memory: "⟩
    else
      let t3 := t2 ++ [Event.VirtualQuery s2.m_ShmView]
      if !o.queryOk then ⟨s2, t3, Outcome.raised "Unable to query memory info: "⟩
      else
        let s3 : GPURamDrive :=
          { s2 with m_BufStart := s2.m_ShmView + K.IMDPROXY_HEADER_SIZE, m_ShmMutexSrv := o.mutex }
        let t4 := t3 ++ [Event.CreateMutex (sPrefix ++ ServiceName ++ "_Server") o.mutex]
        if s3.m_ShmMutexSrv = 0 then ⟨s3, t4, Outcome.raised "Unable to create mutex object: "⟩
        else
          let t5 := t4 ++ [Event.WaitForSingleObject s3.m_ShmMutexSrv]
          if !o.mutexAcquired then
            ⟨s3, t5, Outcome.raised "A service with this name is already running"⟩
          else
            let s4 : GPURamDrive := { s3 with m_ShmReqEvent := o.reqEvent }
            let t6 := t5 ++ [Event.CreateEvent (sPrefix ++ ServiceName ++ "_Request") o.reqEvent]
            if s4.m_ShmReqEvent = 0 then
              ⟨s4, t6, Outcome.raised "Unable to create request event object: "⟩
            else
              let s5 : GPURamDrive := { s4 with m_ShmRespEvent := o.respEvent }
              let t7 :=
                t6 ++ [Event.CreateEvent (sPrefix ++ ServiceName ++ "_Response") o.respEvent]
              if s5.m_ShmRespEvent = 0 then
                ⟨s5, t7, Outcome.raised "Unable to create response event object: "⟩
              else ⟨s5, t7, Outcome.returned⟩

/-- Modelled from the spec: `config.restoreOriginalTempEnvironment()`, a member
of a class that is not part of the sources. Section 4.4 describes it as
restoring the temp-directory redirection and names no failure, so it is an
external call that returns. -/
def restoreOriginalTempEnvironment : List Event :=
  [Event.restoreOriginalTempEnvironment]

/-- The member function `ImdiskUnmountDevice`, as the state in which it
returns. `onWorker` says whether the calling thread is the worker thread
(`m_GpuThread.get_id() == std::this_thread::get_id()`, possible only while the
thread is joinable). `join()` returns once the worker has left its thread
function, whose last statement is `Close()`: for a worker still serving, that
`Close()` is part of the state in which the join returns. -/
def ImdiskUnmountDevice (api : GpuApi) (s : GPURamDrive) (onWorker : Bool) : Run :=
  if s.m_MountPoint.length = 0 then ⟨s, [], Outcome.returned⟩
  else
    let t1 := (if s.m_TempFolderParam then restoreOriginalTempEnvironment else [])
      ++ [Event.ImDiskForceRemoveDevice s.m_DeviceId]
    let s1 : GPURamDrive := { s with m_MountPoint := "" }
    if s1.m_GpuThread.joinable && onWorker then ⟨s1, t1, Outcome.returned⟩
    else
      match s1.m_GpuThread with
      | Worker.none => ⟨s1, t1, Outcome.returned⟩
      | Worker.finished =>
        ⟨{ s1 with m_GpuThread := Worker.none }, t1 ++ [Event.threadJoin], Outcome.returned⟩
      | Worker.serving =>
        let c := Close api s1
        ⟨{ c.state with m_GpuThread := Worker.none }, t1 ++ c.trace ++ [Event.threadJoin],
          Outcome.returned⟩

/-- The member function `ImdiskMountDevice`. `regOk` is the result of
`ImDiskCreateDeviceEx`, `regDeviceId` the value it leaves in its in/out
argument `m_DeviceId`. `detach()` on a thread that is not joinable throws
`std::system_error`. -/
def ImdiskMountDevice (api : GpuApi) (s : GPURamDrive) (MountPoint : String) (regOk : Bool)
    (regDeviceId : Nat) : Run :=
  let s1 : GPURamDrive := { s with m_MountPoint := MountPoint, m_DeviceId := regDeviceId }
  let t1 := [Event.ImDiskCreateDeviceEx s.m_ServiceName MountPoint]
  if !regOk then
    if !s1.m_GpuThread.joinable then ⟨s1, t1, Outcome.raised "std::system_error"⟩
    else
      let s2 : GPURamDrive := { s1 with m_GpuThread := Worker.none }
      let c := Close api s2
      let u := ImdiskUnmountDevice api c.state false
      ⟨u.state, t1 ++ [Event.threadDetach] ++ c.trace ++ u.trace,
        Outcome.raised "Unable to create and mount ImDisk drive"⟩
  else ⟨s1, t1, Outcome.returned⟩

/-- The arguments of `CreateRamDevice`. -/
structure CreateArgs where
  clPlatformId : Nat
  clDeviceId : Nat
  ServiceName : String
  MemSize : Nat
  MountPoint : String
  FormatParam : String
  LabelParam : String
  TempFolderParam : Bool
  deriving DecidableEq

/-- What the outside world supplies to one `CreateRamDevice` call: the context
`CudaHandler::getContext` returns (CUDA variant), the results of allocation and
channel setup, whether the worker's loop has already returned (and the worker
has run its final `Close()`) when `ImDiskCreateDeviceEx` returns, and the
result of `ImDiskCreateDeviceEx`. -/
structure CreateOracle where
  cuContext : Nat
  alloc : AllocOracle
  setup : SetupOracle
  workerExited : Bool
  regOk : Bool
  regDeviceId : Nat
  deriving DecidableEq

/-- The statements of `CreateRamDevice` after a successful `ImdiskMountDevice`:
the optional format, label and temp-folder steps. -/
def formatSteps (a : CreateArgs) : List Event :=
  if a.FormatParam.length ≠ 0 then
    [Event.formatVolume a.MountPoint a.FormatParam]
    ++ (if a.LabelParam.length ≠ 0 then [Event.SetVolumeLabel a.MountPoint a.LabelParam] else [])
    ++ (if a.TempFolderParam then [Event.setMountTempEnvironment a.MountPoint] else [])
  else []

/-- The thread function `CreateRamDevice` starts, up to the handshake: the
`try` block runs `GpuAllocateRam` and `ImdiskSetupComm` and sets the handshake
to 1 (outcome `returned`; the worker then enters `ImdiskHandleComm`); the
`catch` block runs `Close`, stores the exception and sets the handshake to 2
(outcome `raised`; the thread function ends). -/
def workerSetup (api : GpuApi) (K : ImdiskConsts) (s : GPURamDrive) (ServiceName : String)
    (alloc : AllocOracle) (setup : SetupOracle) : Run :=
  let al := GpuAllocateRam api s alloc
  match al.outcome with
  | Outcome.raised what =>
    let c := Close api al.state
    ⟨c.state, Event.GpuAllocateRam :: (al.trace ++ c.trace), Outcome.raised what⟩
  | Outcome.returned =>
    let su := ImdiskSetupComm K al.state ServiceName setup
    match su.outcome with
    | Outcome.raised what =>
      let c := Close api su.state
      ⟨c.state,
        Event.GpuAllocateRam :: (al.trace ++ Event.ImdiskSetupComm ServiceName :: (su.trace ++ c.trace)),
        Outcome.raised what⟩
    | Outcome.returned =>
      ⟨su.state, Event.GpuAllocateRam :: (al.trace ++ Event.ImdiskSetupComm ServiceName :: su.trace),
        Outcome.returned⟩

/-- The worker leaves `ImdiskHandleComm` on its own (close request, failed
wait or failed signalling) and runs the `Close()` that ends its thread
function. -/
def workerExit (api : GpuApi) (s : GPURamDrive) : Run :=
  let c := Close api s
  ⟨{ c.state with m_GpuThread := Worker.finished }, c.trace, Outcome.returned⟩

/-- The first statements of `CreateRamDevice`, which precede its test of
`m_GpuThread.joinable()`: the arguments are stored in the members, `m_DeviceId`
is set to `IMDISK_AUTO_DEVICE_NUMBER`, and in the CUDA variant `m_cuCtx` is
set to the context `CudaHandler::getContext(m_clDeviceId)` returns. -/
def recordArguments (api : GpuApi) (K : ImdiskConsts) (s : GPURamDrive) (a : CreateArgs)
    (o : CreateOracle) : GPURamDrive :=
  let s1 : GPURamDrive :=
    { s with
      m_clPlatformId := a.clPlatformId, m_clDeviceId := a.clDeviceId, m_MemSize := a.MemSize,
      m_ServiceName := a.ServiceName, m_DeviceId := K.IMDISK_AUTO_DEVICE_NUMBER,
      m_TempFolderParam := a.TempFolderParam }
  if api = GpuApi.CUDA then { s1 with m_cuCtx := o.cuContext } else s1

/-- The member function `CreateRamDevice`, on the members of the object. The
caller polls the handshake, so the worker's allocation and setup are over when
the caller goes on: with handshake 2 it joins the worker and rethrows, with
handshake 1 it calls `ImdiskMountDevice`. `ImdiskHandleComm` assigns no member
of the object, so the requests the worker serves while the caller is still
inside this function do not show in the members; what shows is whether the
loop has returned and the worker's `Close` has run, which is the input
`workerExited`. -/
def CreateRamDevice (api : GpuApi) (K : ImdiskConsts) (s : GPURamDrive) (a : CreateArgs)
    (o : CreateOracle) : Run :=
  let s2 := recordArguments api K s a o
  let t2 := if api = GpuApi.CUDA then [Event.getContext s2.m_clDeviceId] else []
  if s2.m_GpuThread.joinable then
    ⟨s2, t2 ++ fireStateChange s2, Outcome.returned⟩
  else
    let w := workerSetup api K { s2 with m_GpuThread := Worker.serving } a.ServiceName o.alloc o.setup
    let t3 := t2 ++ Event.threadStart :: w.trace
    match w.outcome with
    | Outcome.raised what =>
      ⟨{ w.state with m_GpuThread := Worker.none }, t3 ++ [Event.threadJoin], Outcome.raised what⟩
    | Outcome.returned =>
      let x : Run := if o.workerExited then workerExit api w.state else ⟨w.state, [], Outcome.returned⟩
      let m := ImdiskMountDevice api x.state a.MountPoint o.regOk o.regDeviceId
      match m.outcome with
      | Outcome.raised what => ⟨m.state, t3 ++ x.trace ++ m.trace, Outcome.raised what⟩
      | Outcome.returned =>
        ⟨m.state, t3 ++ x.trace ++ m.trace ++ formatSteps a ++ fireStateChange m.state,
          Outcome.returned⟩

/-! ## Failure points and reachable states -/

/-- The resource state `Close` establishes: the view pointer, the four channel
handles, the host buffer and the compute-API objects are null, `m_MemSize` is
0, and in the CUDA variant the device pointer is null. -/
def Released (api : GpuApi) (s : GPURamDrive) : Prop :=
  s.m_ShmView = 0 ∧ s.m_ShmHandle = 0 ∧ s.m_ShmMutexSrv = 0 ∧ s.m_ShmReqEvent = 0
    ∧ s.m_ShmRespEvent = 0 ∧ s.m_pBuff = 0 ∧ s.m_GpuMem = 0 ∧ s.m_Queue = 0 ∧ s.m_Context = 0
    ∧ s.m_MemSize = 0 ∧ (api = GpuApi.CUDA → s.m_cuDevPtr = 0)

instance (api : GpuApi) (s : GPURamDrive) : Decidable (Released api s) := by
  unfold Released
  infer_instance

/-- The object holds no resource: the view pointer, the four channel handles,
the host buffer and the compute-API objects are null, and in the CUDA variant
the device pointer is null. -/
def HoldsNothing (api : GpuApi) (s : GPURamDrive) : Prop :=
  s.m_ShmView = 0 ∧ s.m_ShmHandle = 0 ∧ s.m_ShmMutexSrv = 0 ∧ s.m_ShmReqEvent = 0
    ∧ s.m_ShmRespEvent = 0 ∧ s.m_pBuff = 0 ∧ s.m_GpuMem = 0 ∧ s.m_Queue = 0 ∧ s.m_Context = 0
    ∧ (api = GpuApi.CUDA → s.m_cuDevPtr = 0)

/-- One if the member `p` is not null and holds the resource `r`, else zero. -/
def slot (p : Nat) (held r : Resource) : Nat :=
  if p ≠ 0 ∧ held = r then 1 else 0

/-- In how many of the channel members (view, mapping, mutex, request event,
response event) the object holds the resource `r`. -/
def holdsChannel (s : GPURamDrive) (r : Resource) : Nat :=
  slot s.m_ShmView (Resource.view s.m_ShmView) r
  + slot s.m_ShmHandle (Resource.handle s.m_ShmHandle) r
  + slot s.m_ShmMutexSrv (Resource.handle s.m_ShmMutexSrv) r
  + slot s.m_ShmReqEvent (Resource.handle s.m_ShmReqEvent) r
  + slot s.m_ShmRespEvent (Resource.handle s.m_ShmRespEvent) r

/-- In how many of the backend members the object holds the resource `r`,
counting the members whose contents the variant's `Close` hands back: the host
buffer in every variant, the OpenCL objects in the OpenCL variant, the device
pointer in the CUDA variant. -/
def holdsBackend (api : GpuApi) (s : GPURamDrive) (r : Resource) : Nat :=
  slot s.m_pBuff (Resource.hostBuffer s.m_pBuff) r
  + (if api = GpuApi.OPENCL then
      slot s.m_GpuMem (Resource.clMem s.m_GpuMem) r
      + slot s.m_Queue (Resource.clQueue s.m_Queue) r
      + slot s.m_Context (Resource.clContext s.m_Context) r
    else 0)
  + (if api = GpuApi.CUDA then slot s.m_cuDevPtr (Resource.deviceMemory s.m_cuDevPtr) r else 0)

/-- In how many of its members the object holds the resource `r`. -/
def holds (api : GpuApi) (s : GPURamDrive) (r : Resource) : Nat :=
  holdsChannel s r + holdsBackend api s r

/-- The failure points of `GpuAllocateRam`, read off the allocation results. -/
def allocFails (api : GpuApi) (o : AllocOracle) : Bool :=
  match api with
  | GpuApi.HOSTMEM => o.hostBuf == 0
  | GpuApi.CUDA => !o.cuAllocOk
  | GpuApi.OPENCL =>
    o.clContext == 0 || o.clQueue == 0 || !o.clInfoOk || !o.clVendorOk || o.clGpuMem == 0

/-- The failure points of `ImdiskSetupComm`: mapping creation, name already
exists, view mapping, memory query, mutex creation, mutex acquire, request
event, response event. -/
def setupFails (o : SetupOracle) : Bool :=
  o.mapping == 0 || o.alreadyExists || o.view == 0 || !o.queryOk || o.mutex == 0
    || !o.mutexAcquired || o.reqEvent == 0 || o.respEvent == 0

/-- The failure points of a `CreateRamDevice` call that is not refused: backend
allocation, a step of channel setup, or device registration. -/
def createFails (api : GpuApi) (o : CreateOracle) : Bool :=
  allocFails api o.alloc || setupFails o.setup || !o.regOk

/-- The states of the object a client can bring about: construction, the
setters, `CreateRamDevice` and `ImdiskUnmountDevice` under any results of the
external calls, and the two things a worker does on its own (leaving the loop
while attached, and the `Close()` a detached worker still runs). -/
inductive Reachable (api : GpuApi) (K : ImdiskConsts) : GPURamDrive → Prop
  | new (d : Nat) (t : Bool) : Reachable api K (GPURamDrive.new d t)
  | setCallback (s : GPURamDrive) (c : Bool) :
      Reachable api K s → Reachable api K (SetStateChangeCallback s c)
  | setDriveType (s : GPURamDrive) (ty : EGpuRamDriveType) :
      Reachable api K s → Reachable api K { s with m_DriveType := ty }
  | setRemovable (s : GPURamDrive) (b : Bool) :
      Reachable api K s → Reachable api K { s with m_DriveRemovable := b }
  | create (s : GPURamDrive) (a : CreateArgs) (o : CreateOracle) :
      Reachable api K s → Reachable api K (CreateRamDevice api K s a o).state
  | unmount (s : GPURamDrive) (onWorker : Bool) :
      Reachable api K s → Reachable api K (ImdiskUnmountDevice api s onWorker).state
  | workerExit (s : GPURamDrive) :
      Reachable api K s → s.m_GpuThread = Worker.serving →
      Reachable api K (workerExit api s).state
  | detachedClose (s : GPURamDrive) :
      Reachable api K s → Reachable api K (Close api s).state

/-! ## Sample inputs -/

/-- Allocation results in which every call succeeds. -/
def AllocOracle.ok : AllocOracle :=
  ⟨1001, true, false, 1002, 1003, 1004, true, true, false, 1005⟩

/-- Channel setup results in which every call succeeds. -/
def SetupOracle.ok : SetupOracle :=
  ⟨11, false, 12, true, 13, true, 14, 15⟩

/-- A `CreateRamDevice` environment in which every call succeeds and the worker
is still serving when the call returns; the driver assigns device number 0. -/
def CreateOracle.ok : CreateOracle :=
  ⟨21, AllocOracle.ok, SetupOracle.ok, false, true, 0⟩

/-- The arguments of the end-to-end scenario of the specification: service
"TestDrv", mount point "R:", no formatting. -/
def CreateArgs.sample (MemSize : Nat) : CreateArgs :=
  ⟨0, 0, "TestDrv", MemSize, "R:", "", "", false⟩

/-- The object after a successful `CreateRamDevice` of `MemSize` bytes on a
freshly constructed object: mounted on "R:", worker still serving. -/
def GPURamDrive.sampleMounted (api : GpuApi) (MemSize : Nat) : GPURamDrive :=
  (CreateRamDevice api imdisk (GPURamDrive.new 0 false) (CreateArgs.sample MemSize)
    CreateOracle.ok).state

/-- A memory of zero bytes. -/
def Mem.zero : Mem :=
  fun _ => 0

/-! ## Memory lemmas -/

theorem memcpy_inside (dst src : Mem) (dstOff srcOff size i : Nat) (h1 : dstOff ≤ i)
    (h2 : i < dstOff + size) : memcpy dst dstOff src srcOff size i = src (srcOff + (i - dstOff)) := by
  simp [memcpy, h1, h2]

theorem memcpy_outside (dst src : Mem) (dstOff srcOff size i : Nat)
    (h : i < dstOff ∨ dstOff + size ≤ i) : memcpy dst dstOff src srcOff size i = dst i := by
  unfold memcpy
  split
  · omega
  · rfl

theorem Mem.toList_length (m : Mem) (n : Nat) : (Mem.toList m n).length = n := by
  simp [Mem.toList]

theorem Mem.toList_eq_of_forall (m : Mem) (b : List Byte)
    (h : ∀ i (hi : i < b.length), m i = b[i]) : Mem.toList m b.length = b := by
  apply List.ext_getElem
  · simp [Mem.toList]
  · intro i h1 h2
    simp [Mem.toList, h i h2]

theorem Mem.ofList_getElem (b : List Byte) (i : Nat) (hi : i < b.length) :
    Mem.ofList b i = b[i] := by
  simp [Mem.ofList, List.getD, List.getElem?_eq_getElem hi]

theorem clampLength_eq_min (length bufSize : Nat) : clampLength length bufSize = min length bufSize := by
  unfold clampLength
  split <;> omega

theorem toOff64_small (x : Nat) (h : x < 2 ^ 63) : toOff64 x = (x : Int) := by
  unfold toOff64
  have h1 : x % 2 ^ 64 = x := Nat.mod_eq_of_lt (by omega)
  rw [h1, if_pos h]

/-! ## The memory backend -/

/-- C3: host-memory backend round trip. After `GpuAllocateRam` has allocated
`m_MemSize` bytes, for every offset `off` and byte sequence `b` with
`off + len(b) <= m_MemSize`, `GpuWrite(b, len(b), off)` returns `len(b)` and
changes no backend byte outside `[off, off + len(b))`; a following
`GpuRead(buf, len(b), off)` returns `len(b)`, leaves the first `len(b)` bytes
of `buf` equal to `b`, and leaves the backend as the write left it. -/
theorem C3_host_backend_round_trip (s0 : GPURamDrive) (o : AllocOracle) (store buf : Mem)
    (off : Nat) (b : List Byte) (okW okR : Bool)
    (halloc : (GpuAllocateRam GpuApi.HOSTMEM s0 o).outcome = Outcome.returned)
    (hfit : off + b.length ≤ s0.m_MemSize) :
    ∃ w rd : BackendRun,
      GpuWrite GpuApi.HOSTMEM (GpuAllocateRam GpuApi.HOSTMEM s0 o).state store (Mem.ofList b)
          b.length (off : Int) okW = some w
      ∧ w.ret = b.length
      ∧ (∀ i, i < off ∨ off + b.length ≤ i → w.store i = store i)
      ∧ GpuRead GpuApi.HOSTMEM (GpuAllocateRam GpuApi.HOSTMEM s0 o).state w.store buf
          b.length (off : Int) okR = some rd
      ∧ rd.ret = b.length
      ∧ Mem.toList rd.buf b.length = b
      ∧ rd.store = w.store := by
  have hbuf : o.hostBuf ≠ 0 := by
    intro h0
    simp [GpuAllocateRam, h0] at halloc
  have hst : (GpuAllocateRam GpuApi.HOSTMEM s0 o).state = { s0 with m_pBuff := o.hostBuf } := by
    simp [GpuAllocateRam, hbuf]
  have hin : hostInBounds { s0 with m_pBuff := o.hostBuf } b.length (off : Int) := by
    refine ⟨hbuf, by omega, ?_⟩
    show (off : Int) + (b.length : Int) ≤ (s0.m_MemSize : Int)
    exact_mod_cast hfit
  rw [hst]
  refine ⟨⟨memcpy store off (Mem.ofList b) 0 b.length, Mem.ofList b, b.length, []⟩,
    ⟨memcpy store off (Mem.ofList b) 0 b.length,
      memcpy buf 0 (memcpy store off (Mem.ofList b) 0 b.length) off b.length, b.length, []⟩,
    ?_, rfl, ?_, ?_, rfl, ?_, rfl⟩
  · simp [GpuWrite, hin]
  · intro i hi
    exact memcpy_outside _ _ _ _ _ _ hi
  · simp [GpuRead, hin]
  · apply Mem.toList_eq_of_forall
    intro i hi
    show memcpy buf 0 (memcpy store off (Mem.ofList b) 0 b.length) off b.length i = b[i]
    rw [memcpy_inside _ _ _ _ _ _ (Nat.zero_le i) (by omega)]
    rw [memcpy_inside _ _ _ _ _ _ (by omega) (by omega)]
    have : 0 + (off + (i - 0) - off) = i := by omega
    rw [this]
    exact Mem.ofList_getElem b i hi

/-- C3, at a concrete input: 8 bytes allocated, the bytes 7, 9 written at
offset 2 and read back. -/
theorem C3_host_backend_round_trip_witness :
    (GpuAllocateRam GpuApi.HOSTMEM { GPURamDrive.new 0 false with m_MemSize := 8 }
        AllocOracle.ok).outcome = Outcome.returned
    ∧ 2 + [(7 : Byte), 9].length ≤ ({ GPURamDrive.new 0 false with m_MemSize := 8 }).m_MemSize
    ∧ ∃ w rd : BackendRun,
      GpuWrite GpuApi.HOSTMEM
          (GpuAllocateRam GpuApi.HOSTMEM { GPURamDrive.new 0 false with m_MemSize := 8 }
            AllocOracle.ok).state
          Mem.zero (Mem.ofList [7, 9]) [(7 : Byte), 9].length ((2 : Nat) : Int) true = some w
      ∧ w.ret = [(7 : Byte), 9].length
      ∧ (∀ i, i < 2 ∨ 2 + [(7 : Byte), 9].length ≤ i → w.store i = Mem.zero i)
      ∧ GpuRead GpuApi.HOSTMEM
          (GpuAllocateRam GpuApi.HOSTMEM { GPURamDrive.new 0 false with m_MemSize := 8 }
            AllocOracle.ok).state
          w.store Mem.zero [(7 : Byte), 9].length ((2 : Nat) : Int) true = some rd
      ∧ rd.ret = [(7 : Byte), 9].length
      ∧ Mem.toList rd.buf [(7 : Byte), 9].length = [7, 9]
      ∧ rd.store = w.store :=
  ⟨by decide, by decide,
    C3_host_backend_round_trip { GPURamDrive.new 0 false with m_MemSize := 8 }
      AllocOracle.ok Mem.zero Mem.zero 2 [7, 9] true true (by decide) (by decide)⟩

/-! ## The protocol loop -/

theorem ImdiskConsts.distinct (K : ImdiskConsts) :
    K.IMDPROXY_REQ_READ ≠ K.IMDPROXY_REQ_INFO ∧ K.IMDPROXY_REQ_WRITE ≠ K.IMDPROXY_REQ_INFO
    ∧ K.IMDPROXY_REQ_WRITE ≠ K.IMDPROXY_REQ_READ ∧ K.IMDPROXY_REQ_CLOSE ≠ K.IMDPROXY_REQ_INFO
    ∧ K.IMDPROXY_REQ_CLOSE ≠ K.IMDPROXY_REQ_READ
    ∧ K.IMDPROXY_REQ_CLOSE ≠ K.IMDPROXY_REQ_WRITE := by
  have h := K.cases_distinct
  simp only [List.nodup_cons, List.mem_cons, List.mem_singleton, not_or] at h
  refine ⟨?_, ?_, ?_, ?_, ?_, ?_⟩ <;> omega

theorem GpuRead_trace_filter (api : GpuApi) (s : GPURamDrive) (store buf : Mem) (size : Nat)
    (offset : Int) (ok : Bool) (b : BackendRun)
    (h : GpuRead api s store buf size offset ok = some b) :
    b.trace.filter Event.isBackendCall = [] := by
  unfold GpuRead at h
  cases api <;> cases ok <;> simp at h
  all_goals first
    | (obtain ⟨-, h⟩ := h; subst h; rfl)
    | (subst h; rfl)

theorem GpuWrite_trace_filter (api : GpuApi) (s : GPURamDrive) (store buf : Mem) (size : Nat)
    (offset : Int) (ok : Bool) (b : BackendRun)
    (h : GpuWrite api s store buf size offset ok = some b) :
    b.trace.filter Event.isBackendCall = [] := by
  unfold GpuWrite at h
  cases api <;> cases ok <;> simp at h
  all_goals first
    | (obtain ⟨-, h⟩ := h; subst h; rfl)
    | (subst h; rfl)

theorem handleRequest_read (api : GpuApi) (K : ImdiskConsts) (s : GPURamDrive) (store : Mem)
    (r : Round) (hwait : r.waitOk = true) (hcode : r.header.request_code = K.IMDPROXY_REQ_READ) :
    handleRequest api K s store r =
      match GpuRead api s store r.buffer (clampLength r.header.w2 s.m_BufSize)
          (toOff64 r.header.w1) r.devOk with
      | none =>
        ⟨store, { r.header with w0 := 0 }, r.buffer,
          [Event.WaitForSingleObject s.m_ShmReqEvent,
            Event.GpuRead (clampLength r.header.w2 s.m_BufSize) (toOff64 r.header.w1)],
          false, false⟩
      | some b =>
        ⟨b.store, ⟨0, b.ret, r.header.w2⟩, b.buf,
          Event.WaitForSingleObject s.m_ShmReqEvent
            :: Event.GpuRead (clampLength r.header.w2 s.m_BufSize) (toOff64 r.header.w1)
            :: (b.trace ++ [Event.SetEvent s.m_ShmRespEvent]),
          r.setEventOk, true⟩ := by
  have hd := K.distinct
  unfold handleRequest
  simp only [hwait, hcode, hd.1, Bool.not_true, if_false, if_true, Bool.false_eq_true]
  cases hg : GpuRead api s store r.buffer (clampLength r.header.w2 s.m_BufSize)
      (toOff64 r.header.w1) r.devOk <;>
    simp [signalResponse, ShmHeader.req_length, ShmHeader.req_offset, hg]

theorem handleRequest_write (api : GpuApi) (K : ImdiskConsts) (s : GPURamDrive) (store : Mem)
    (r : Round) (hwait : r.waitOk = true) (hcode : r.header.request_code = K.IMDPROXY_REQ_WRITE) :
    handleRequest api K s store r =
      match GpuWrite api s store r.buffer (clampLength r.header.w2 s.m_BufSize)
          (toOff64 r.header.w1) r.devOk with
      | none =>
        ⟨store, { r.header with w0 := 0 }, r.buffer,
          [Event.WaitForSingleObject s.m_ShmReqEvent,
            Event.GpuWrite (clampLength r.header.w2 s.m_BufSize) (toOff64 r.header.w1)],
          false, false⟩
      | some b =>
        ⟨b.store, ⟨0, b.ret, r.header.w2⟩, b.buf,
          Event.WaitForSingleObject s.m_ShmReqEvent
            :: Event.GpuWrite (clampLength r.header.w2 s.m_BufSize) (toOff64 r.header.w1)
            :: (b.trace ++ [Event.SetEvent s.m_ShmRespEvent]),
          r.setEventOk, true⟩ := by
  have hd := K.distinct
  unfold handleRequest
  simp only [hwait, hcode, hd.2.1, hd.2.2.1, Bool.not_true, if_false, if_true,
    Bool.false_eq_true]
  cases hg : GpuWrite api s store r.buffer (clampLength r.header.w2 s.m_BufSize)
      (toOff64 r.header.w1) r.devOk <;>
    simp [signalResponse, ShmHeader.req_length, ShmHeader.req_offset, hg]

theorem ImdiskSetupComm_bufSize (K : ImdiskConsts) (s : GPURamDrive) (name : String)
    (o : SetupOracle) : (ImdiskSetupComm K s name o).state.m_BufSize = 4 * 1024 * 1024 := by
  unfold ImdiskSetupComm
  simp only []
  split_ifs <;> rfl

theorem clampLength_over (B : Nat) : clampLength (B + 1) B = clampLength B B := by
  simp [clampLength]

theorem handleRequest_over_length (api : GpuApi) (K : ImdiskConsts) (s : GPURamDrive)
    (store : Mem) (r : Round) (hwait : r.waitOk = true)
    (hcode : r.header.request_code = K.IMDPROXY_REQ_READ
      ∨ r.header.request_code = K.IMDPROXY_REQ_WRITE) :
    handleRequest api K s store (r.withLength (s.m_BufSize + 1)) =
      { handleRequest api K s store (r.withLength s.m_BufSize) with
        header :=
          { (handleRequest api K s store (r.withLength s.m_BufSize)).header with
            w2 := s.m_BufSize + 1 } } := by
  have hw1 : (r.withLength (s.m_BufSize + 1)).waitOk = true := hwait
  have hw2 : (r.withLength s.m_BufSize).waitOk = true := hwait
  rcases hcode with hc | hc
  · rw [handleRequest_read api K s store (r.withLength (s.m_BufSize + 1)) hw1 hc,
      handleRequest_read api K s store (r.withLength s.m_BufSize) hw2 hc]
    simp only [Round.withLength, clampLength_over]
    cases GpuRead api s store r.buffer (clampLength s.m_BufSize s.m_BufSize)
      (toOff64 r.header.w1) r.devOk <;> rfl
  · rw [handleRequest_write api K s store (r.withLength (s.m_BufSize + 1)) hw1 hc,
      handleRequest_write api K s store (r.withLength s.m_BufSize) hw2 hc]
    simp only [Round.withLength, clampLength_over]
    cases GpuWrite api s store r.buffer (clampLength s.m_BufSize s.m_BufSize)
      (toOff64 r.header.w1) r.devOk <;> rfl

theorem handleRequest_errorno (api : GpuApi) (K : ImdiskConsts) (s : GPURamDrive)
    (store : Mem) (r : Round) (hwait : r.waitOk = true)
    (hcode : r.header.request_code = K.IMDPROXY_REQ_READ
      ∨ r.header.request_code = K.IMDPROXY_REQ_WRITE) :
    (handleRequest api K s store r).header.errorno = 0 := by
  rcases hcode with hc | hc
  · rw [handleRequest_read api K s store _ hwait hc]
    cases GpuRead api s store r.buffer (clampLength r.header.w2 s.m_BufSize)
      (toOff64 r.header.w1) r.devOk <;> rfl
  · rw [handleRequest_write api K s store _ hwait hc]
    cases GpuWrite api s store r.buffer (clampLength r.header.w2 s.m_BufSize)
      (toOff64 r.header.w1) r.devOk <;> rfl

theorem handleRequest_backend_calls (api : GpuApi) (K : ImdiskConsts) (s : GPURamDrive)
    (store : Mem) (r : Round) (hwait : r.waitOk = true)
    (hcode : r.header.request_code = K.IMDPROXY_REQ_READ
      ∨ r.header.request_code = K.IMDPROXY_REQ_WRITE) :
    (handleRequest api K s store r).trace.filter Event.isBackendCall =
      [if r.header.request_code = K.IMDPROXY_REQ_READ then
          Event.GpuRead (min r.header.req_length s.m_BufSize) (toOff64 r.header.req_offset)
        else Event.GpuWrite (min r.header.req_length s.m_BufSize) (toOff64 r.header.req_offset)] := by
  rcases hcode with hc | hc
  · rw [handleRequest_read api K s store _ hwait hc, if_pos hc]
    cases hg : GpuRead api s store r.buffer (clampLength r.header.w2 s.m_BufSize)
      (toOff64 r.header.w1) r.devOk
    · simp [List.filter, Event.isBackendCall, clampLength_eq_min, ShmHeader.req_length,
        ShmHeader.req_offset]
    · have hb := GpuRead_trace_filter _ _ _ _ _ _ _ _ hg
      simp [List.filter_cons, List.filter_append, hb, Event.isBackendCall, clampLength_eq_min,
        ShmHeader.req_length, ShmHeader.req_offset]
  · have hne : r.header.request_code ≠ K.IMDPROXY_REQ_READ := by
      rw [hc]
      exact K.distinct.2.2.1
    rw [handleRequest_write api K s store _ hwait hc, if_neg hne]
    cases hg : GpuWrite api s store r.buffer (clampLength r.header.w2 s.m_BufSize)
      (toOff64 r.header.w1) r.devOk
    · simp [List.filter, Event.isBackendCall, clampLength_eq_min, ShmHeader.req_length,
        ShmHeader.req_offset]
    · have hb := GpuWrite_trace_filter _ _ _ _ _ _ _ _ hg
      simp [List.filter_cons, List.filter_append, hb, Event.isBackendCall, clampLength_eq_min,
        ShmHeader.req_length, ShmHeader.req_offset]

/-- C1: in `ImdiskHandleComm`, with `m_BufSize` as `ImdiskSetupComm` sets it
(4 MiB), every READ and every WRITE request makes exactly one backend call,
`GpuRead` resp. `GpuWrite`, whose size is `min(Req.length, m_BufSize)`, hence
at most `m_BufSize`; and for every offset, backend state and build variant the
request with `length = m_BufSize + 1` makes the same calls, gives the same
response (`errorno = 0`, same `length`), and leaves the same backend and data
buffer contents as the request with `length = m_BufSize`. -/
theorem C1_transfer_clamped_to_buffer (api : GpuApi) (K : ImdiskConsts) (s0 : GPURamDrive)
    (name : String) (o : SetupOracle) (store : Mem) (r : Round) (len : Nat)
    (hwait : r.waitOk = true)
    (hcode : r.header.request_code = K.IMDPROXY_REQ_READ
      ∨ r.header.request_code = K.IMDPROXY_REQ_WRITE) :
    let s := (ImdiskSetupComm K s0 name o).state
    let run := fun l : Nat => handleRequest api K s store (r.withLength l)
    s.m_BufSize = 4 * 1024 * 1024
    ∧ (run len).trace.filter Event.isBackendCall =
        [if r.header.request_code = K.IMDPROXY_REQ_READ then
            Event.GpuRead (min len s.m_BufSize) (toOff64 r.header.req_offset)
          else Event.GpuWrite (min len s.m_BufSize) (toOff64 r.header.req_offset)]
    ∧ min len s.m_BufSize ≤ s.m_BufSize
    ∧ (run (s.m_BufSize + 1)).trace = (run s.m_BufSize).trace
    ∧ (run (s.m_BufSize + 1)).header.errorno = 0
    ∧ (run s.m_BufSize).header.errorno = 0
    ∧ (run (s.m_BufSize + 1)).header.resp_length = (run s.m_BufSize).header.resp_length
    ∧ (run (s.m_BufSize + 1)).backend = (run s.m_BufSize).backend
    ∧ (run (s.m_BufSize + 1)).buffer = (run s.m_BufSize).buffer
    ∧ (run (s.m_BufSize + 1)).again = (run s.m_BufSize).again
    ∧ (run (s.m_BufSize + 1)).defined = (run s.m_BufSize).defined := by
  intro s run
  have hover : run (s.m_BufSize + 1) = _ := handleRequest_over_length api K s store r hwait hcode
  have hcalls := handleRequest_backend_calls api K s store (r.withLength len) hwait hcode
  have he1 := handleRequest_errorno api K s store (r.withLength (s.m_BufSize + 1)) hwait hcode
  have he2 := handleRequest_errorno api K s store (r.withLength s.m_BufSize) hwait hcode
  refine ⟨ImdiskSetupComm_bufSize K s0 name o, hcalls, Nat.min_le_right _ _, ?_, he1, he2, ?_, ?_,
    ?_, ?_, ?_⟩
  all_goals first
    | (rw [hover]; done)
    | (rw [hover]; rfl)

/-- C1, at a concrete input: a READ request (code 2) at offset 0 against a
freshly constructed object after channel setup, host-memory variant. -/
theorem C1_transfer_clamped_to_buffer_witness :
    (Round.request 2 0 512).waitOk = true
    ∧ ((Round.request 2 0 512).header.request_code = imdisk.IMDPROXY_REQ_READ
      ∨ (Round.request 2 0 512).header.request_code = imdisk.IMDPROXY_REQ_WRITE)
    ∧ (let s := (ImdiskSetupComm imdisk (GPURamDrive.new 0 false) "TestDrv" SetupOracle.ok).state
      let run := fun l : Nat =>
        handleRequest GpuApi.HOSTMEM imdisk s Mem.zero ((Round.request 2 0 512).withLength l)
      s.m_BufSize = 4 * 1024 * 1024
      ∧ (run 512).trace.filter Event.isBackendCall =
          [if (Round.request 2 0 512).header.request_code = imdisk.IMDPROXY_REQ_READ then
              Event.GpuRead (min 512 s.m_BufSize)
                (toOff64 (Round.request 2 0 512).header.req_offset)
            else Event.GpuWrite (min 512 s.m_BufSize)
              (toOff64 (Round.request 2 0 512).header.req_offset)]
      ∧ min 512 s.m_BufSize ≤ s.m_BufSize
      ∧ (run (s.m_BufSize + 1)).trace = (run s.m_BufSize).trace
      ∧ (run (s.m_BufSize + 1)).header.errorno = 0
      ∧ (run s.m_BufSize).header.errorno = 0
      ∧ (run (s.m_BufSize + 1)).header.resp_length = (run s.m_BufSize).header.resp_length
      ∧ (run (s.m_BufSize + 1)).backend = (run s.m_BufSize).backend
      ∧ (run (s.m_BufSize + 1)).buffer = (run s.m_BufSize).buffer
      ∧ (run (s.m_BufSize + 1)).again = (run s.m_BufSize).again
      ∧ (run (s.m_BufSize + 1)).defined = (run s.m_BufSize).defined) :=
  ⟨rfl, Or.inl rfl,
    C1_transfer_clamped_to_buffer GpuApi.HOSTMEM imdisk (GPURamDrive.new 0 false) "TestDrv"
      SetupOracle.ok Mem.zero (Round.request 2 0 512) 512 rfl (Or.inl rfl)⟩

theorem handleRequest_host_defined (K : ImdiskConsts) (s : GPURamDrive) (store : Mem) (r : Round)
    (hwait : r.waitOk = true)
    (hcode : r.header.request_code = K.IMDPROXY_REQ_READ
      ∨ r.header.request_code = K.IMDPROXY_REQ_WRITE) :
    (handleRequest GpuApi.HOSTMEM K s store r).defined = true
      ↔ hostInBounds s (min r.header.req_length s.m_BufSize) (toOff64 r.header.req_offset) := by
  rcases hcode with hc | hc
  · rw [handleRequest_read GpuApi.HOSTMEM K s store r hwait hc]
    simp only [GpuRead, clampLength_eq_min, ShmHeader.req_length, ShmHeader.req_offset]
    split_ifs with h <;> simp [h]
  · rw [handleRequest_write GpuApi.HOSTMEM K s store r hwait hc]
    simp only [GpuWrite, clampLength_eq_min, ShmHeader.req_length, ShmHeader.req_offset]
    split_ifs with h <;> simp [h]

/-- C2 fails as stated: on a host-memory drive created with 4096 bytes, the READ
request with offset 4096 and length 1 makes `ImdiskHandleComm` call
`GpuRead(buf, 1, 4096)`, for which `offset + n = 4097 > m_MemSize`; the
`memcpy` reads past the allocation. -/
theorem C2_offset_not_validated_counterexample :
    (CreateRamDevice GpuApi.HOSTMEM imdisk (GPURamDrive.new 0 false) (CreateArgs.sample 4096)
        CreateOracle.ok).state.m_MemSize = 4096
    ∧ (handleRequest GpuApi.HOSTMEM imdisk
        (CreateRamDevice GpuApi.HOSTMEM imdisk (GPURamDrive.new 0 false) (CreateArgs.sample 4096)
          CreateOracle.ok).state Mem.zero (Round.request 2 4096 1)).trace
        = [Event.WaitForSingleObject 14, Event.GpuRead 1 4096]
    ∧ ¬ ((4096 : Int) + 1 ≤ 4096)
    ∧ (handleRequest GpuApi.HOSTMEM imdisk
        (CreateRamDevice GpuApi.HOSTMEM imdisk (GPURamDrive.new 0 false) (CreateArgs.sample 4096)
          CreateOracle.ok).state Mem.zero (Round.request 2 4096 1)).defined = false := by
  refine ⟨by decide, by decide, by decide, by decide⟩

/-- C2, amended: `ImdiskHandleComm` does not validate the offset. For every
READ or WRITE request it makes the one backend call `GpuRead` / `GpuWrite`
with `n = min(Req.length, m_BufSize)` and the request's own offset; the call
satisfies `0 <= offset` and `offset + n <= m_MemSize` whenever the request
header does, and in the host-memory variant the transfer stays inside the
allocated region exactly when `m_pBuff` is allocated, `0 <= offset` and
`offset + n <= m_MemSize`. -/
theorem C2_backend_call_within_region_iff (api : GpuApi) (K : ImdiskConsts) (s : GPURamDrive)
    (store : Mem) (r : Round) (hwait : r.waitOk = true)
    (hcode : r.header.request_code = K.IMDPROXY_REQ_READ
      ∨ r.header.request_code = K.IMDPROXY_REQ_WRITE) :
    (handleRequest api K s store r).trace.filter Event.isBackendCall =
        [if r.header.request_code = K.IMDPROXY_REQ_READ then
            Event.GpuRead (min r.header.req_length s.m_BufSize) (toOff64 r.header.req_offset)
          else Event.GpuWrite (min r.header.req_length s.m_BufSize)
            (toOff64 r.header.req_offset)]
    ∧ (r.header.req_offset + min r.header.req_length s.m_BufSize ≤ s.m_MemSize →
        s.m_MemSize < 2 ^ 63 →
        0 ≤ toOff64 r.header.req_offset
        ∧ toOff64 r.header.req_offset + (min r.header.req_length s.m_BufSize : Nat)
            ≤ (s.m_MemSize : Int))
    ∧ (api = GpuApi.HOSTMEM →
        ((handleRequest api K s store r).defined = true ↔
          (s.m_pBuff ≠ 0 ∧ 0 ≤ toOff64 r.header.req_offset
            ∧ toOff64 r.header.req_offset + (min r.header.req_length s.m_BufSize : Nat)
                ≤ (s.m_MemSize : Int)))) := by
  refine ⟨handleRequest_backend_calls api K s store r hwait hcode, ?_, ?_⟩
  · intro hle hsz
    have hlt : r.header.req_offset < 2 ^ 63 := by omega
    rw [toOff64_small _ hlt]
    constructor
    · exact Int.natCast_nonneg _
    · exact_mod_cast hle
  · intro hapi
    subst hapi
    exact handleRequest_host_defined K s store r hwait hcode

/-- C2 amended, at a concrete input: the READ request with offset 512 and length
1024 on a host-memory drive created with 4096 bytes. -/
theorem C2_backend_call_within_region_iff_witness :
    (Round.request 2 512 1024).waitOk = true
    ∧ ((Round.request 2 512 1024).header.request_code = imdisk.IMDPROXY_REQ_READ
      ∨ (Round.request 2 512 1024).header.request_code = imdisk.IMDPROXY_REQ_WRITE)
    ∧ ((handleRequest GpuApi.HOSTMEM imdisk (GPURamDrive.sampleMounted GpuApi.HOSTMEM 4096)
          Mem.zero (Round.request 2 512 1024)).trace.filter Event.isBackendCall =
          [if (Round.request 2 512 1024).header.request_code = imdisk.IMDPROXY_REQ_READ then
              Event.GpuRead
                (min (Round.request 2 512 1024).header.req_length
                  (GPURamDrive.sampleMounted GpuApi.HOSTMEM 4096).m_BufSize)
                (toOff64 (Round.request 2 512 1024).header.req_offset)
            else Event.GpuWrite
              (min (Round.request 2 512 1024).header.req_length
                (GPURamDrive.sampleMounted GpuApi.HOSTMEM 4096).m_BufSize)
              (toOff64 (Round.request 2 512 1024).header.req_offset)]
      ∧ ((Round.request 2 512 1024).header.req_offset
            + min (Round.request 2 512 1024).header.req_length
                (GPURamDrive.sampleMounted GpuApi.HOSTMEM 4096).m_BufSize
            ≤ (GPURamDrive.sampleMounted GpuApi.HOSTMEM 4096).m_MemSize →
          (GPURamDrive.sampleMounted GpuApi.HOSTMEM 4096).m_MemSize < 2 ^ 63 →
          0 ≤ toOff64 (Round.request 2 512 1024).header.req_offset
          ∧ toOff64 (Round.request 2 512 1024).header.req_offset
              + (min (Round.request 2 512 1024).header.req_length
                  (GPURamDrive.sampleMounted GpuApi.HOSTMEM 4096).m_BufSize : Nat)
              ≤ ((GPURamDrive.sampleMounted GpuApi.HOSTMEM 4096).m_MemSize : Int))
      ∧ (GpuApi.HOSTMEM = GpuApi.HOSTMEM →
          ((handleRequest GpuApi.HOSTMEM imdisk (GPURamDrive.sampleMounted GpuApi.HOSTMEM 4096)
              Mem.zero (Round.request 2 512 1024)).defined = true ↔
            ((GPURamDrive.sampleMounted GpuApi.HOSTMEM 4096).m_pBuff ≠ 0
              ∧ 0 ≤ toOff64 (Round.request 2 512 1024).header.req_offset
              ∧ toOff64 (Round.request 2 512 1024).header.req_offset
                  + (min (Round.request 2 512 1024).header.req_length
                      (GPURamDrive.sampleMounted GpuApi.HOSTMEM 4096).m_BufSize : Nat)
                  ≤ ((GPURamDrive.sampleMounted GpuApi.HOSTMEM 4096).m_MemSize : Int))))) :=
  ⟨rfl, Or.inl rfl,
    C2_backend_call_within_region_iff GpuApi.HOSTMEM imdisk
      (GPURamDrive.sampleMounted GpuApi.HOSTMEM 4096) Mem.zero (Round.request 2 512 1024) rfl
      (Or.inl rfl)⟩

theorem Close_state (api : GpuApi) (s : GPURamDrive) :
    (Close api s).state =
      { s with
        m_ShmView := 0, m_ShmHandle := 0, m_ShmMutexSrv := 0, m_ShmReqEvent := 0,
        m_ShmRespEvent := 0, m_pBuff := 0, m_GpuMem := 0, m_Queue := 0, m_Context := 0,
        m_MemSize := 0, m_cuDevPtr := if api = GpuApi.CUDA then 0 else s.m_cuDevPtr } := by
  cases api <;> rfl

theorem Close_outcome (api : GpuApi) (s : GPURamDrive) :
    (Close api s).outcome = Outcome.returned := rfl

theorem GpuAllocateRam_raised (api : GpuApi) (s : GPURamDrive) (o : AllocOracle) :
    (GpuAllocateRam api s o).outcome.isRaised = allocFails api o := by
  cases api
  · unfold GpuAllocateRam allocFails
    by_cases h : o.hostBuf = 0 <;> simp [h, Outcome.isRaised]
  · unfold GpuAllocateRam allocFails
    cases h1 : o.cuAllocOk <;> cases h2 : o.cuOutOfMemory <;> simp [Outcome.isRaised]
  · unfold GpuAllocateRam allocFails
    by_cases h1 : o.clContext = 0 <;> by_cases h2 : o.clQueue = 0 <;> cases h3 : o.clInfoOk <;>
      cases h4 : o.clVendorOk <;> by_cases h5 : o.clGpuMem = 0 <;>
      simp [h1, h2, h5, Outcome.isRaised]

theorem GpuAllocateRam_frame (api : GpuApi) (s : GPURamDrive) (o : AllocOracle) :
    (GpuAllocateRam api s o).state =
      { s with
        m_pBuff := (GpuAllocateRam api s o).state.m_pBuff,
        m_Context := (GpuAllocateRam api s o).state.m_Context,
        m_Queue := (GpuAllocateRam api s o).state.m_Queue,
        m_GpuMem := (GpuAllocateRam api s o).state.m_GpuMem,
        m_cuDevPtr := (GpuAllocateRam api s o).state.m_cuDevPtr } := by
  cases api <;> unfold GpuAllocateRam <;> simp only [] <;> split_ifs <;> rfl

theorem ImdiskSetupComm_raised (K : ImdiskConsts) (s : GPURamDrive) (name : String)
    (o : SetupOracle) : (ImdiskSetupComm K s name o).outcome.isRaised = setupFails o := by
  unfold ImdiskSetupComm setupFails
  by_cases h1 : o.mapping = 0 <;> cases h2 : o.alreadyExists <;> by_cases h3 : o.view = 0 <;>
    cases h4 : o.queryOk <;> by_cases h5 : o.mutex = 0 <;> cases h6 : o.mutexAcquired <;>
    by_cases h7 : o.reqEvent = 0 <;> by_cases h8 : o.respEvent = 0 <;>
    simp [h1, h3, h5, h7, h8, Outcome.isRaised]

theorem ImdiskSetupComm_frame (K : ImdiskConsts) (s : GPURamDrive) (name : String)
    (o : SetupOracle) :
    (ImdiskSetupComm K s name o).state =
      { s with
        m_BufSize := 4 <<< 20,
        m_ShmHandle := (ImdiskSetupComm K s name o).state.m_ShmHandle,
        m_ShmView := (ImdiskSetupComm K s name o).state.m_ShmView,
        m_BufStart := (ImdiskSetupComm K s name o).state.m_BufStart,
        m_ShmMutexSrv := (ImdiskSetupComm K s name o).state.m_ShmMutexSrv,
        m_ShmReqEvent := (ImdiskSetupComm K s name o).state.m_ShmReqEvent,
        m_ShmRespEvent := (ImdiskSetupComm K s name o).state.m_ShmRespEvent } := by
  unfold ImdiskSetupComm
  simp only []
  split_ifs <;> rfl

theorem ImdiskSetupComm_view (K : ImdiskConsts) (s : GPURamDrive) (name : String)
    (o : SetupOracle) (h : setupFails o = false) :
    (ImdiskSetupComm K s name o).state.m_ShmView = o.view ∧ o.view ≠ 0 := by
  unfold setupFails at h
  simp only [Bool.or_eq_false_iff, beq_eq_false_iff_ne, Bool.not_eq_false'] at h
  obtain ⟨⟨⟨⟨⟨⟨⟨h1, h2⟩, h3⟩, h4⟩, h5⟩, h6⟩, h7⟩, h8⟩ := h
  refine ⟨?_, h3⟩
  unfold ImdiskSetupComm
  simp [h1, h2, h3, h4, h5, h6, h7, h8]

theorem Close_released (api : GpuApi) (s : GPURamDrive) : Released api (Close api s).state := by
  rw [Close_state]
  refine ⟨rfl, rfl, rfl, rfl, rfl, rfl, rfl, rfl, rfl, rfl, ?_⟩
  intro h
  simp [h]

theorem Close_keeps (api : GpuApi) (s : GPURamDrive) :
    (Close api s).state.m_MountPoint = s.m_MountPoint
    ∧ (Close api s).state.m_GpuThread = s.m_GpuThread
    ∧ (Close api s).state.m_StateChangeCallback = s.m_StateChangeCallback := by
  rw [Close_state]
  exact ⟨rfl, rfl, rfl⟩

theorem workerSetup_alloc_raised (api : GpuApi) (K : ImdiskConsts) (s : GPURamDrive)
    (name : String) (alloc : AllocOracle) (setup : SetupOracle) (what : String)
    (h : (GpuAllocateRam api s alloc).outcome = Outcome.raised what) :
    workerSetup api K s name alloc setup =
      ⟨(Close api (GpuAllocateRam api s alloc).state).state,
        Event.GpuAllocateRam ::
          ((GpuAllocateRam api s alloc).trace ++ (Close api (GpuAllocateRam api s alloc).state).trace),
        Outcome.raised what⟩ := by
  unfold workerSetup
  simp only [h]

theorem workerSetup_setup_raised (api : GpuApi) (K : ImdiskConsts) (s : GPURamDrive)
    (name : String) (alloc : AllocOracle) (setup : SetupOracle) (what : String)
    (h1 : (GpuAllocateRam api s alloc).outcome = Outcome.returned)
    (h2 : (ImdiskSetupComm K (GpuAllocateRam api s alloc).state name setup).outcome
      = Outcome.raised what) :
    workerSetup api K s name alloc setup =
      ⟨(Close api (ImdiskSetupComm K (GpuAllocateRam api s alloc).state name setup).state).state,
        Event.GpuAllocateRam ::
          ((GpuAllocateRam api s alloc).trace ++ Event.ImdiskSetupComm name ::
            ((ImdiskSetupComm K (GpuAllocateRam api s alloc).state name setup).trace
              ++ (Close api
                (ImdiskSetupComm K (GpuAllocateRam api s alloc).state name setup).state).trace)),
        Outcome.raised what⟩ := by
  unfold workerSetup
  simp only [h1, h2]

theorem workerSetup_returned (api : GpuApi) (K : ImdiskConsts) (s : GPURamDrive)
    (name : String) (alloc : AllocOracle) (setup : SetupOracle)
    (h1 : (GpuAllocateRam api s alloc).outcome = Outcome.returned)
    (h2 : (ImdiskSetupComm K (GpuAllocateRam api s alloc).state name setup).outcome
      = Outcome.returned) :
    workerSetup api K s name alloc setup =
      ⟨(ImdiskSetupComm K (GpuAllocateRam api s alloc).state name setup).state,
        Event.GpuAllocateRam ::
          ((GpuAllocateRam api s alloc).trace ++ Event.ImdiskSetupComm name ::
            (ImdiskSetupComm K (GpuAllocateRam api s alloc).state name setup).trace),
        Outcome.returned⟩ := by
  unfold workerSetup
  simp only [h1, h2]

theorem workerSetup_raised (api : GpuApi) (K : ImdiskConsts) (s : GPURamDrive) (name : String)
    (alloc : AllocOracle) (setup : SetupOracle) :
    (workerSetup api K s name alloc setup).outcome.isRaised
      = (allocFails api alloc || setupFails setup) := by
  have h1 := GpuAllocateRam_raised api s alloc
  have h2 := ImdiskSetupComm_raised K (GpuAllocateRam api s alloc).state name setup
  cases hal : (GpuAllocateRam api s alloc).outcome with
  | raised what =>
    rw [workerSetup_alloc_raised api K s name alloc setup what hal, ← h1, hal]
    rfl
  | returned =>
    cases hsu : (ImdiskSetupComm K (GpuAllocateRam api s alloc).state name setup).outcome with
    | raised what =>
      rw [workerSetup_setup_raised api K s name alloc setup what hal hsu, ← h1, ← h2, hal, hsu]
      rfl
    | returned =>
      rw [workerSetup_returned api K s name alloc setup hal hsu, ← h1, ← h2, hal, hsu]
      rfl

theorem workerSetup_keeps (api : GpuApi) (K : ImdiskConsts) (s : GPURamDrive) (name : String)
    (alloc : AllocOracle) (setup : SetupOracle) :
    (workerSetup api K s name alloc setup).state.m_MountPoint = s.m_MountPoint
    ∧ (workerSetup api K s name alloc setup).state.m_GpuThread = s.m_GpuThread
    ∧ (workerSetup api K s name alloc setup).state.m_StateChangeCallback
        = s.m_StateChangeCallback := by
  have hA := GpuAllocateRam_frame api s alloc
  have hS := ImdiskSetupComm_frame K (GpuAllocateRam api s alloc).state name setup
  have hA1 : (GpuAllocateRam api s alloc).state.m_MountPoint = s.m_MountPoint := by rw [hA]
  have hA2 : (GpuAllocateRam api s alloc).state.m_GpuThread = s.m_GpuThread := by rw [hA]
  have hA3 : (GpuAllocateRam api s alloc).state.m_StateChangeCallback
      = s.m_StateChangeCallback := by rw [hA]
  have hS1 : (ImdiskSetupComm K (GpuAllocateRam api s alloc).state name setup).state.m_MountPoint
      = s.m_MountPoint := by rw [hS]; exact hA1
  have hS2 : (ImdiskSetupComm K (GpuAllocateRam api s alloc).state name setup).state.m_GpuThread
      = s.m_GpuThread := by rw [hS]; exact hA2
  have hS3 : (ImdiskSetupComm K (GpuAllocateRam api s alloc).state name setup).state.m_StateChangeCallback
      = s.m_StateChangeCallback := by rw [hS]; exact hA3
  cases hal : (GpuAllocateRam api s alloc).outcome with
  | raised what =>
    rw [workerSetup_alloc_raised api K s name alloc setup what hal]
    have hk := Close_keeps api (GpuAllocateRam api s alloc).state
    exact ⟨hk.1.trans hA1, hk.2.1.trans hA2, hk.2.2.trans hA3⟩
  | returned =>
    cases hsu : (ImdiskSetupComm K (GpuAllocateRam api s alloc).state name setup).outcome with
    | raised what =>
      rw [workerSetup_setup_raised api K s name alloc setup what hal hsu]
      have hk := Close_keeps api (ImdiskSetupComm K (GpuAllocateRam api s alloc).state name setup).state
      exact ⟨hk.1.trans hS1, hk.2.1.trans hS2, hk.2.2.trans hS3⟩
    | returned =>
      rw [workerSetup_returned api K s name alloc setup hal hsu]
      exact ⟨hS1, hS2, hS3⟩

theorem workerSetup_raised_released (api : GpuApi) (K : ImdiskConsts) (s : GPURamDrive)
    (name : String) (alloc : AllocOracle) (setup : SetupOracle)
    (h : (workerSetup api K s name alloc setup).outcome.isRaised = true) :
    Released api (workerSetup api K s name alloc setup).state := by
  cases hal : (GpuAllocateRam api s alloc).outcome with
  | raised what =>
    rw [workerSetup_alloc_raised api K s name alloc setup what hal]
    exact Close_released api _
  | returned =>
    cases hsu : (ImdiskSetupComm K (GpuAllocateRam api s alloc).state name setup).outcome with
    | raised what =>
      rw [workerSetup_setup_raised api K s name alloc setup what hal hsu]
      exact Close_released api _
    | returned =>
      rw [workerSetup_returned api K s name alloc setup hal hsu] at h
      simp [Outcome.isRaised] at h

theorem workerSetup_ok (api : GpuApi) (K : ImdiskConsts) (s : GPURamDrive)
    (name : String) (alloc : AllocOracle) (setup : SetupOracle)
    (h : (allocFails api alloc || setupFails setup) = false) :
    (workerSetup api K s name alloc setup).outcome = Outcome.returned
    ∧ (workerSetup api K s name alloc setup).state.m_ShmView = setup.view
    ∧ setup.view ≠ 0
    ∧ (workerSetup api K s name alloc setup).state.m_MemSize = s.m_MemSize := by
  simp only [Bool.or_eq_false_iff] at h
  have h1 := GpuAllocateRam_raised api s alloc
  have h2 := ImdiskSetupComm_raised K (GpuAllocateRam api s alloc).state name setup
  rw [h.1] at h1
  rw [h.2] at h2
  have hal : (GpuAllocateRam api s alloc).outcome = Outcome.returned := by
    cases hx : (GpuAllocateRam api s alloc).outcome with
    | raised what => rw [hx] at h1; simp [Outcome.isRaised] at h1
    | returned => rfl
  have hsu : (ImdiskSetupComm K (GpuAllocateRam api s alloc).state name setup).outcome
      = Outcome.returned := by
    cases hx : (ImdiskSetupComm K (GpuAllocateRam api s alloc).state name setup).outcome with
    | raised what => rw [hx] at h2; simp [Outcome.isRaised] at h2
    | returned => rfl
  have hv := ImdiskSetupComm_view K (GpuAllocateRam api s alloc).state name setup h.2
  have hA := GpuAllocateRam_frame api s alloc
  have hS := ImdiskSetupComm_frame K (GpuAllocateRam api s alloc).state name setup
  have hm : (ImdiskSetupComm K (GpuAllocateRam api s alloc).state name setup).state.m_MemSize
      = s.m_MemSize := by
    rw [hS]
    show (GpuAllocateRam api s alloc).state.m_MemSize = s.m_MemSize
    rw [hA]
  rw [workerSetup_returned api K s name alloc setup hal hsu]
  exact ⟨rfl, hv.1, hv.2, hm⟩

theorem recordArguments_eq (api : GpuApi) (K : ImdiskConsts) (s : GPURamDrive) (a : CreateArgs)
    (o : CreateOracle) :
    recordArguments api K s a o =
      { s with
        m_clPlatformId := a.clPlatformId, m_clDeviceId := a.clDeviceId, m_MemSize := a.MemSize,
        m_ServiceName := a.ServiceName, m_DeviceId := K.IMDISK_AUTO_DEVICE_NUMBER,
        m_TempFolderParam := a.TempFolderParam,
        m_cuCtx := if api = GpuApi.CUDA then o.cuContext else s.m_cuCtx } := by
  cases api <;> rfl

theorem CreateRamDevice_refused (api : GpuApi) (K : ImdiskConsts) (s : GPURamDrive)
    (a : CreateArgs) (o : CreateOracle) (hj : s.m_GpuThread.joinable = true) :
    CreateRamDevice api K s a o =
      ⟨recordArguments api K s a o,
        (if api = GpuApi.CUDA then [Event.getContext a.clDeviceId] else [])
          ++ fireStateChange s,
        Outcome.returned⟩ := by
  have hj2 : (recordArguments api K s a o).m_GpuThread.joinable = true := by
    rw [recordArguments_eq]
    exact hj
  have hd : (recordArguments api K s a o).m_clDeviceId = a.clDeviceId := by
    rw [recordArguments_eq]
  have hf : fireStateChange (recordArguments api K s a o) = fireStateChange s := by
    rw [recordArguments_eq]
    rfl
  unfold CreateRamDevice
  simp only [hj2, if_true, hd, hf]

theorem CreateRamDevice_setup_raised (api : GpuApi) (K : ImdiskConsts) (s : GPURamDrive)
    (a : CreateArgs) (o : CreateOracle) (what : String) (hj : s.m_GpuThread.joinable = false)
    (hw : (workerSetup api K { recordArguments api K s a o with m_GpuThread := Worker.serving }
      a.ServiceName o.alloc o.setup).outcome = Outcome.raised what) :
    (CreateRamDevice api K s a o).state =
        { (workerSetup api K { recordArguments api K s a o with m_GpuThread := Worker.serving }
            a.ServiceName o.alloc o.setup).state with m_GpuThread := Worker.none }
    ∧ (CreateRamDevice api K s a o).outcome = Outcome.raised what := by
  have hj2 : (recordArguments api K s a o).m_GpuThread.joinable = false := by
    rw [recordArguments_eq]
    exact hj
  unfold CreateRamDevice
  simp only [hj2, hw, Bool.false_eq_true, if_false]
  constructor <;> trivial

theorem CreateRamDevice_mount (api : GpuApi) (K : ImdiskConsts) (s : GPURamDrive)
    (a : CreateArgs) (o : CreateOracle) (hj : s.m_GpuThread.joinable = false)
    (hw : (workerSetup api K { recordArguments api K s a o with m_GpuThread := Worker.serving }
      a.ServiceName o.alloc o.setup).outcome = Outcome.returned) :
    (CreateRamDevice api K s a o).state =
        (ImdiskMountDevice api
          (if o.workerExited then
              workerExit api (workerSetup api K
                { recordArguments api K s a o with m_GpuThread := Worker.serving }
                a.ServiceName o.alloc o.setup).state
            else
              ⟨(workerSetup api K
                { recordArguments api K s a o with m_GpuThread := Worker.serving }
                a.ServiceName o.alloc o.setup).state, [], Outcome.returned⟩).state
          a.MountPoint o.regOk o.regDeviceId).state
    ∧ (CreateRamDevice api K s a o).outcome =
        (ImdiskMountDevice api
          (if o.workerExited then
              workerExit api (workerSetup api K
                { recordArguments api K s a o with m_GpuThread := Worker.serving }
                a.ServiceName o.alloc o.setup).state
            else
              ⟨(workerSetup api K
                { recordArguments api K s a o with m_GpuThread := Worker.serving }
                a.ServiceName o.alloc o.setup).state, [], Outcome.returned⟩).state
          a.MountPoint o.regOk o.regDeviceId).outcome := by
  have hj2 : (recordArguments api K s a o).m_GpuThread.joinable = false := by
    rw [recordArguments_eq]
    exact hj
  unfold CreateRamDevice
  simp only [hj2, hw, Bool.false_eq_true, if_false]
  split <;> rename_i h <;> simp only [h] <;> constructor <;> trivial

theorem ImdiskUnmountDevice_mountPoint (api : GpuApi) (s : GPURamDrive) (onWorker : Bool) :
    (ImdiskUnmountDevice api s onWorker).state.m_MountPoint.length = 0 := by
  unfold ImdiskUnmountDevice
  by_cases h : s.m_MountPoint.length = 0
  · simp only [h, if_true]
  · simp only [h, if_false]
    split
    · rfl
    · split
      · rfl
      · rfl
      · show (Close api _).state.m_MountPoint.length = 0
        rw [(Close_keeps api _).1]
        rfl

theorem ImdiskUnmountDevice_outcome (api : GpuApi) (s : GPURamDrive) (onWorker : Bool) :
    (ImdiskUnmountDevice api s onWorker).outcome = Outcome.returned := by
  unfold ImdiskUnmountDevice
  by_cases h : s.m_MountPoint.length = 0
  · simp only [h, if_true]
  · simp only [h, if_false]
    split
    · rfl
    · split <;> rfl

theorem ImdiskUnmountDevice_detached (api : GpuApi) (s : GPURamDrive) (onWorker : Bool)
    (ht : s.m_GpuThread = Worker.none) (hr : Released api s) :
    (ImdiskUnmountDevice api s onWorker).state.m_GpuThread = Worker.none
    ∧ Released api (ImdiskUnmountDevice api s onWorker).state := by
  unfold ImdiskUnmountDevice
  by_cases h : s.m_MountPoint.length = 0
  · simp only [h, if_true]
    exact ⟨ht, hr⟩
  · simp only [h, if_false, ht, Worker.joinable, Bool.false_and, Bool.false_eq_true]
    exact ⟨trivial, hr⟩

theorem ImdiskMountDevice_ok (api : GpuApi) (s : GPURamDrive) (MountPoint : String)
    (regDeviceId : Nat) :
    ImdiskMountDevice api s MountPoint true regDeviceId =
      ⟨{ s with m_MountPoint := MountPoint, m_DeviceId := regDeviceId },
        [Event.ImDiskCreateDeviceEx s.m_ServiceName MountPoint], Outcome.returned⟩ := by
  unfold ImdiskMountDevice
  simp

theorem ImdiskMountDevice_failed (api : GpuApi) (s : GPURamDrive) (MountPoint : String)
    (regDeviceId : Nat) (hj : s.m_GpuThread.joinable = true) :
    (ImdiskMountDevice api s MountPoint false regDeviceId).outcome.isRaised = true
    ∧ (ImdiskMountDevice api s MountPoint false regDeviceId).state.m_GpuThread = Worker.none
    ∧ Released api (ImdiskMountDevice api s MountPoint false regDeviceId).state
    ∧ (ImdiskMountDevice api s MountPoint false regDeviceId).state.m_MountPoint.length = 0 := by
  unfold ImdiskMountDevice
  simp only [Bool.not_false, if_true, hj, Bool.not_true, Bool.false_eq_true, if_false]
  have hk := Close_keeps api
    { s with m_MountPoint := MountPoint, m_DeviceId := regDeviceId, m_GpuThread := Worker.none }
  have hd := ImdiskUnmountDevice_detached api
    (Close api { s with
      m_MountPoint := MountPoint, m_DeviceId := regDeviceId, m_GpuThread := Worker.none }).state
    false hk.2.1 (Close_released api _)
  exact ⟨rfl, hd.1, hd.2, ImdiskUnmountDevice_mountPoint api _ false⟩

theorem Outcome.eq_returned_of_not_raised (x : Outcome) (h : x.isRaised = false) :
    x = Outcome.returned := by
  cases x with
  | returned => rfl
  | raised what => simp [Outcome.isRaised] at h

theorem Outcome.exists_of_raised (x : Outcome) (h : x.isRaised = true) :
    ∃ what, x = Outcome.raised what := by
  cases x with
  | returned => simp [Outcome.isRaised] at h
  | raised what => exact ⟨what, rfl⟩

theorem CreateRamDevice_failure (api : GpuApi) (K : ImdiskConsts) (s : GPURamDrive)
    (a : CreateArgs) (o : CreateOracle) (hj : s.m_GpuThread.joinable = false)
    (hf : createFails api o = true) :
    (CreateRamDevice api K s a o).outcome.isRaised = true
    ∧ Released api (CreateRamDevice api K s a o).state
    ∧ (CreateRamDevice api K s a o).state.m_GpuThread = Worker.none
    ∧ ((CreateRamDevice api K s a o).state.m_MountPoint.length = 0
      ∨ (CreateRamDevice api K s a o).state.m_MountPoint = s.m_MountPoint) := by
  have hwr := workerSetup_raised api K
    { recordArguments api K s a o with m_GpuThread := Worker.serving } a.ServiceName o.alloc o.setup
  have hwk := workerSetup_keeps api K
    { recordArguments api K s a o with m_GpuThread := Worker.serving } a.ServiceName o.alloc o.setup
  cases hfs : (allocFails api o.alloc || setupFails o.setup) with
  | true =>
    rw [hfs] at hwr
    obtain ⟨what, hw⟩ := Outcome.exists_of_raised _ hwr
    obtain ⟨hst, hout⟩ := CreateRamDevice_setup_raised api K s a o what hj hw
    have hrel := workerSetup_raised_released api K
      { recordArguments api K s a o with m_GpuThread := Worker.serving } a.ServiceName o.alloc
      o.setup hwr
    rw [hst, hout]
    refine ⟨rfl, hrel, rfl, Or.inr ?_⟩
    show (workerSetup api K { recordArguments api K s a o with m_GpuThread := Worker.serving }
      a.ServiceName o.alloc o.setup).state.m_MountPoint = s.m_MountPoint
    rw [hwk.1, recordArguments_eq]
  | false =>
    rw [hfs] at hwr
    have hw := Outcome.eq_returned_of_not_raised _ hwr
    obtain ⟨hst, hout⟩ := CreateRamDevice_mount api K s a o hj hw
    have hreg : o.regOk = false := by
      unfold createFails at hf
      rw [hfs] at hf
      simpa using hf
    rw [hst, hout, hreg]
    have hxj : (if o.workerExited then
        workerExit api (workerSetup api K
          { recordArguments api K s a o with m_GpuThread := Worker.serving }
          a.ServiceName o.alloc o.setup).state
      else
        ⟨(workerSetup api K
          { recordArguments api K s a o with m_GpuThread := Worker.serving }
          a.ServiceName o.alloc o.setup).state, [], Outcome.returned⟩).state.m_GpuThread.joinable
        = true := by
      split
      · rfl
      · show (workerSetup api K { recordArguments api K s a o with m_GpuThread := Worker.serving }
          a.ServiceName o.alloc o.setup).state.m_GpuThread.joinable = true
        rw [hwk.2.1]
        rfl
    have hm := ImdiskMountDevice_failed api _ a.MountPoint o.regDeviceId hxj
    exact ⟨hm.1, hm.2.2.1, hm.2.1, Or.inl hm.2.2.2⟩

theorem CreateRamDevice_success (api : GpuApi) (K : ImdiskConsts) (s : GPURamDrive)
    (a : CreateArgs) (o : CreateOracle) (hj : s.m_GpuThread.joinable = false)
    (hf : createFails api o = false) :
    (CreateRamDevice api K s a o).outcome = Outcome.returned
    ∧ (CreateRamDevice api K s a o).state.m_MountPoint = a.MountPoint
    ∧ (CreateRamDevice api K s a o).state.m_GpuThread
        = (if o.workerExited then Worker.finished else Worker.serving)
    ∧ (o.workerExited = false →
        (CreateRamDevice api K s a o).state.m_ShmView = o.setup.view ∧ o.setup.view ≠ 0
        ∧ (CreateRamDevice api K s a o).state.m_MemSize = a.MemSize) := by
  unfold createFails at hf
  simp only [Bool.or_eq_false_iff, Bool.not_eq_false'] at hf
  have hfs : (allocFails api o.alloc || setupFails o.setup) = false := by
    simp only [Bool.or_eq_false_iff]
    exact hf.1
  have hok := workerSetup_ok api K
    { recordArguments api K s a o with m_GpuThread := Worker.serving } a.ServiceName o.alloc
    o.setup hfs
  have hwk := workerSetup_keeps api K
    { recordArguments api K s a o with m_GpuThread := Worker.serving } a.ServiceName o.alloc o.setup
  obtain ⟨hst, hout⟩ := CreateRamDevice_mount api K s a o hj hok.1
  rw [hst, hout, hf.2, ImdiskMountDevice_ok]
  refine ⟨rfl, rfl, ?_, ?_⟩
  · cases o.workerExited
    · show (workerSetup api K { recordArguments api K s a o with m_GpuThread := Worker.serving }
        a.ServiceName o.alloc o.setup).state.m_GpuThread = Worker.serving
      rw [hwk.2.1]
    · rfl
  · intro hwe
    rw [hwe]
    refine ⟨hok.2.1, hok.2.2.1, ?_⟩
    show (workerSetup api K { recordArguments api K s a o with m_GpuThread := Worker.serving }
      a.ServiceName o.alloc o.setup).state.m_MemSize = a.MemSize
    rw [hok.2.2.2, recordArguments_eq]

theorem CreateRamDevice_raised_iff (api : GpuApi) (K : ImdiskConsts) (s : GPURamDrive)
    (a : CreateArgs) (o : CreateOracle) (hj : s.m_GpuThread.joinable = false) :
    (CreateRamDevice api K s a o).outcome.isRaised = createFails api o := by
  cases hf : createFails api o with
  | true => exact (CreateRamDevice_failure api K s a o hj hf).1
  | false =>
    rw [(CreateRamDevice_success api K s a o hj hf).1]
    rfl

theorem Reachable.mountPoint_of_not_joinable {api : GpuApi} {K : ImdiskConsts} {s : GPURamDrive}
    (h : Reachable api K s) : s.m_GpuThread.joinable = false → s.m_MountPoint.length = 0 := by
  induction h with
  | new d t => intro _; rfl
  | setCallback s c _ ih => exact ih
  | setDriveType s ty _ ih => exact ih
  | setRemovable s b _ ih => exact ih
  | create s a o _ ih =>
    intro hnj
    cases hj : s.m_GpuThread.joinable with
    | true =>
      rw [CreateRamDevice_refused api K s a o hj, recordArguments_eq] at hnj
      rw [hj] at hnj
      exact absurd hnj (by decide)
    | false =>
      cases hf : createFails api o with
      | true =>
        rcases (CreateRamDevice_failure api K s a o hj hf).2.2.2 with h0 | h0
        · exact h0
        · rw [h0]
          exact ih hj
      | false =>
        have hs := (CreateRamDevice_success api K s a o hj hf).2.2.1
        rw [hs] at hnj
        cases hwe : o.workerExited <;> rw [hwe] at hnj <;> exact absurd hnj (by decide)
  | unmount s onWorker _ _ =>
    intro _
    exact ImdiskUnmountDevice_mountPoint api s onWorker
  | workerExit s _ _ _ =>
    intro hnj
    simp [GpuRamDrive.workerExit, Worker.joinable] at hnj
  | detachedClose s _ ih =>
    intro hnj
    rw [(Close_keeps api s).1]
    rw [(Close_keeps api s).2.1] at hnj
    exact ih hnj

theorem handleRequest_info (api : GpuApi) (K : ImdiskConsts) (s : GPURamDrive) (store : Mem)
    (r : Round) (hwait : r.waitOk = true)
    (hcode : r.header.request_code = K.IMDPROXY_REQ_INFO) :
    handleRequest api K s store r =
      ⟨store, ⟨s.m_MemSize, 1, 0⟩, r.buffer,
        [Event.WaitForSingleObject s.m_ShmReqEvent, Event.SetEvent s.m_ShmRespEvent],
        r.setEventOk, true⟩ := by
  unfold handleRequest
  simp [hwait, hcode, signalResponse]

/-- C4: for every INFO request, one turn of `ImdiskHandleComm` writes the
response `file_size = m_MemSize`, `req_alignment = 1`, `flags = 0` into the
header words, leaves the backend contents and the data buffer unchanged, and
then signals the response event; in the state a successful `CreateRamDevice`
leaves (worker still serving) `m_MemSize` is the `MemSize` argument, so the
INFO response carries the size requested at create. -/
theorem C4_info_response (api : GpuApi) (K : ImdiskConsts) (s : GPURamDrive) (store : Mem)
    (r : Round) (s0 : GPURamDrive) (a : CreateArgs) (o : CreateOracle)
    (hwait : r.waitOk = true) (hcode : r.header.request_code = K.IMDPROXY_REQ_INFO)
    (hj : s0.m_GpuThread.joinable = false) (hok : createFails api o = false)
    (hserving : o.workerExited = false) :
    (handleRequest api K s store r).header.file_size = s.m_MemSize
    ∧ (handleRequest api K s store r).header.req_alignment = 1
    ∧ (handleRequest api K s store r).header.flags = 0
    ∧ (handleRequest api K s store r).backend = store
    ∧ (handleRequest api K s store r).buffer = r.buffer
    ∧ (handleRequest api K s store r).trace =
        [Event.WaitForSingleObject s.m_ShmReqEvent, Event.SetEvent s.m_ShmRespEvent]
    ∧ (handleRequest api K s store r).defined = true
    ∧ (CreateRamDevice api K s0 a o).outcome = Outcome.returned
    ∧ (handleRequest api K (CreateRamDevice api K s0 a o).state store r).header.file_size
        = a.MemSize := by
  have hc := CreateRamDevice_success api K s0 a o hj hok
  rw [handleRequest_info api K s store r hwait hcode,
    handleRequest_info api K _ store r hwait hcode]
  exact ⟨rfl, rfl, rfl, rfl, rfl, rfl, rfl, hc.1, (hc.2.2.2 hserving).2.2⟩

/-- C4, at the input of the end-to-end scenario: after `CreateRamDevice` with
size 16 MiB on a freshly constructed object, the INFO request (code 1) is
answered with `file_size = 16*1024*1024`. -/
theorem C4_info_response_witness :
    (Round.request 1 0 0).waitOk = true
    ∧ (Round.request 1 0 0).header.request_code = imdisk.IMDPROXY_REQ_INFO
    ∧ (GPURamDrive.new 0 false).m_GpuThread.joinable = false
    ∧ createFails GpuApi.HOSTMEM CreateOracle.ok = false
    ∧ CreateOracle.ok.workerExited = false
    ∧ ((handleRequest GpuApi.HOSTMEM imdisk
          (GPURamDrive.sampleMounted GpuApi.HOSTMEM (16 * 1024 * 1024))
          Mem.zero (Round.request 1 0 0)).header.file_size
        = (GPURamDrive.sampleMounted GpuApi.HOSTMEM (16 * 1024 * 1024)).m_MemSize
      ∧ (handleRequest GpuApi.HOSTMEM imdisk
          (GPURamDrive.sampleMounted GpuApi.HOSTMEM (16 * 1024 * 1024))
          Mem.zero (Round.request 1 0 0)).header.req_alignment = 1
      ∧ (handleRequest GpuApi.HOSTMEM imdisk
          (GPURamDrive.sampleMounted GpuApi.HOSTMEM (16 * 1024 * 1024))
          Mem.zero (Round.request 1 0 0)).header.flags = 0
      ∧ (handleRequest GpuApi.HOSTMEM imdisk
          (GPURamDrive.sampleMounted GpuApi.HOSTMEM (16 * 1024 * 1024))
          Mem.zero (Round.request 1 0 0)).backend = Mem.zero
      ∧ (handleRequest GpuApi.HOSTMEM imdisk
          (GPURamDrive.sampleMounted GpuApi.HOSTMEM (16 * 1024 * 1024))
          Mem.zero (Round.request 1 0 0)).buffer = (Round.request 1 0 0).buffer
      ∧ (handleRequest GpuApi.HOSTMEM imdisk
          (GPURamDrive.sampleMounted GpuApi.HOSTMEM (16 * 1024 * 1024))
          Mem.zero (Round.request 1 0 0)).trace =
          [Event.WaitForSingleObject
              (GPURamDrive.sampleMounted GpuApi.HOSTMEM (16 * 1024 * 1024)).m_ShmReqEvent,
            Event.SetEvent
              (GPURamDrive.sampleMounted GpuApi.HOSTMEM (16 * 1024 * 1024)).m_ShmRespEvent]
      ∧ (handleRequest GpuApi.HOSTMEM imdisk
          (GPURamDrive.sampleMounted GpuApi.HOSTMEM (16 * 1024 * 1024))
          Mem.zero (Round.request 1 0 0)).defined = true
      ∧ (CreateRamDevice GpuApi.HOSTMEM imdisk (GPURamDrive.new 0 false)
          (CreateArgs.sample (16 * 1024 * 1024)) CreateOracle.ok).outcome = Outcome.returned
      ∧ (handleRequest GpuApi.HOSTMEM imdisk
          (CreateRamDevice GpuApi.HOSTMEM imdisk (GPURamDrive.new 0 false)
            (CreateArgs.sample (16 * 1024 * 1024)) CreateOracle.ok).state
          Mem.zero (Round.request 1 0 0)).header.file_size = 16 * 1024 * 1024) :=
  ⟨rfl, rfl, rfl, by decide, rfl,
    C4_info_response GpuApi.HOSTMEM imdisk
      (GPURamDrive.sampleMounted GpuApi.HOSTMEM (16 * 1024 * 1024))
      Mem.zero (Round.request 1 0 0) (GPURamDrive.new 0 false)
      (CreateArgs.sample (16 * 1024 * 1024)) CreateOracle.ok rfl rfl rfl (by decide) rfl⟩

/-- C5: a `CreateRamDevice` call made while `m_GpuThread` is joinable returns
normally; the only calls it makes are, in the CUDA variant, the context lookup,
and then the state-change callback if one is set: no worker is started, no
backend allocation, no channel setup and no device registration takes place,
the thread member is unchanged, and a callback that is set is invoked exactly
once. -/
theorem C5_create_refused_while_joinable (api : GpuApi) (K : ImdiskConsts) (s : GPURamDrive)
    (a : CreateArgs) (o : CreateOracle) (hj : s.m_GpuThread.joinable = true) :
    (CreateRamDevice api K s a o).outcome = Outcome.returned
    ∧ (CreateRamDevice api K s a o).trace =
        (if api = GpuApi.CUDA then [Event.getContext a.clDeviceId] else [])
          ++ (if s.m_StateChangeCallback then [Event.stateChange] else [])
    ∧ Event.threadStart ∉ (CreateRamDevice api K s a o).trace
    ∧ Event.GpuAllocateRam ∉ (CreateRamDevice api K s a o).trace
    ∧ (∀ n, Event.ImdiskSetupComm n ∉ (CreateRamDevice api K s a o).trace)
    ∧ (∀ n m, Event.ImDiskCreateDeviceEx n m ∉ (CreateRamDevice api K s a o).trace)
    ∧ (CreateRamDevice api K s a o).state.m_GpuThread = s.m_GpuThread
    ∧ (s.m_StateChangeCallback = true →
        (CreateRamDevice api K s a o).trace.count Event.stateChange = 1) := by
  rw [CreateRamDevice_refused api K s a o hj, recordArguments_eq]
  refine ⟨rfl, rfl, ?_, ?_, ?_, ?_, rfl, ?_⟩
  · cases api <;> cases s.m_StateChangeCallback <;> simp [fireStateChange]
  · cases api <;> cases s.m_StateChangeCallback <;> simp [fireStateChange]
  · intro n
    cases api <;> cases s.m_StateChangeCallback <;> simp [fireStateChange]
  · intro n m
    cases api <;> cases s.m_StateChangeCallback <;> simp [fireStateChange]
  · intro hcb
    cases api <;> simp [fireStateChange, hcb]

/-- C5, at a concrete input: the object left by a successful create of 4096
bytes, with a callback set, receives a second create of 8192 bytes. -/
theorem C5_create_refused_while_joinable_witness :
    (SetStateChangeCallback (GPURamDrive.sampleMounted GpuApi.HOSTMEM 4096)
        true).m_GpuThread.joinable = true
    ∧ ((CreateRamDevice GpuApi.HOSTMEM imdisk
          (SetStateChangeCallback (GPURamDrive.sampleMounted GpuApi.HOSTMEM 4096) true)
          (CreateArgs.sample 8192) CreateOracle.ok).outcome = Outcome.returned
      ∧ (CreateRamDevice GpuApi.HOSTMEM imdisk
          (SetStateChangeCallback (GPURamDrive.sampleMounted GpuApi.HOSTMEM 4096) true)
          (CreateArgs.sample 8192) CreateOracle.ok).trace =
          (if GpuApi.HOSTMEM = GpuApi.CUDA then
              [Event.getContext (CreateArgs.sample 8192).clDeviceId]
            else [])
          ++ (if (SetStateChangeCallback (GPURamDrive.sampleMounted GpuApi.HOSTMEM 4096)
                true).m_StateChangeCallback
              then [Event.stateChange] else [])
      ∧ Event.threadStart ∉ (CreateRamDevice GpuApi.HOSTMEM imdisk
          (SetStateChangeCallback (GPURamDrive.sampleMounted GpuApi.HOSTMEM 4096) true)
          (CreateArgs.sample 8192) CreateOracle.ok).trace
      ∧ Event.GpuAllocateRam ∉ (CreateRamDevice GpuApi.HOSTMEM imdisk
          (SetStateChangeCallback (GPURamDrive.sampleMounted GpuApi.HOSTMEM 4096) true)
          (CreateArgs.sample 8192) CreateOracle.ok).trace
      ∧ (∀ n, Event.ImdiskSetupComm n ∉ (CreateRamDevice GpuApi.HOSTMEM imdisk
          (SetStateChangeCallback (GPURamDrive.sampleMounted GpuApi.HOSTMEM 4096) true)
          (CreateArgs.sample 8192) CreateOracle.ok).trace)
      ∧ (∀ n m, Event.ImDiskCreateDeviceEx n m ∉ (CreateRamDevice GpuApi.HOSTMEM imdisk
          (SetStateChangeCallback (GPURamDrive.sampleMounted GpuApi.HOSTMEM 4096) true)
          (CreateArgs.sample 8192) CreateOracle.ok).trace)
      ∧ (CreateRamDevice GpuApi.HOSTMEM imdisk
          (SetStateChangeCallback (GPURamDrive.sampleMounted GpuApi.HOSTMEM 4096) true)
          (CreateArgs.sample 8192) CreateOracle.ok).state.m_GpuThread
        = (SetStateChangeCallback (GPURamDrive.sampleMounted GpuApi.HOSTMEM 4096)
            true).m_GpuThread
      ∧ ((SetStateChangeCallback (GPURamDrive.sampleMounted GpuApi.HOSTMEM 4096)
            true).m_StateChangeCallback = true →
          (CreateRamDevice GpuApi.HOSTMEM imdisk
            (SetStateChangeCallback (GPURamDrive.sampleMounted GpuApi.HOSTMEM 4096) true)
            (CreateArgs.sample 8192) CreateOracle.ok).trace.count Event.stateChange = 1)) :=
  ⟨by decide,
    C5_create_refused_while_joinable GpuApi.HOSTMEM imdisk
      (SetStateChangeCallback (GPURamDrive.sampleMounted GpuApi.HOSTMEM 4096) true)
      (CreateArgs.sample 8192) CreateOracle.ok (by decide)⟩

/-- C6, the code at a failing input: a host-memory drive of 16 MiB is mounted
and served (driver-assigned device number 3); `CreateRamDevice` is called again
with other arguments. The call is refused (no worker, no callback set, normal
return), yet the members now hold the new arguments: `m_MemSize` is 1 MiB,
`m_ServiceName` is "Other", the backend selector is (7, 8), the temp-folder
flag is set and `m_DeviceId` is `IMDISK_AUTO_DEVICE_NUMBER`. The next INFO
request reports 1 MiB for the 16 MiB backend, and the next
`ImdiskUnmountDevice` asks the driver to remove device 4294967295. -/
theorem C6_refused_create_overwrites_descriptor :
    (CreateRamDevice GpuApi.HOSTMEM imdisk (GPURamDrive.new 0 false)
        (CreateArgs.sample (16 * 1024 * 1024))
        ⟨21, AllocOracle.ok, SetupOracle.ok, false, true, 3⟩).state.m_GpuThread = Worker.serving
    ∧ (CreateRamDevice GpuApi.HOSTMEM imdisk (GPURamDrive.new 0 false)
        (CreateArgs.sample (16 * 1024 * 1024))
        ⟨21, AllocOracle.ok, SetupOracle.ok, false, true, 3⟩).state.m_MemSize = 16 * 1024 * 1024
    ∧ (CreateRamDevice GpuApi.HOSTMEM imdisk (GPURamDrive.new 0 false)
        (CreateArgs.sample (16 * 1024 * 1024))
        ⟨21, AllocOracle.ok, SetupOracle.ok, false, true, 3⟩).state.m_DeviceId = 3
    ∧ (CreateRamDevice GpuApi.HOSTMEM imdisk
        (CreateRamDevice GpuApi.HOSTMEM imdisk (GPURamDrive.new 0 false)
          (CreateArgs.sample (16 * 1024 * 1024))
          ⟨21, AllocOracle.ok, SetupOracle.ok, false, true, 3⟩).state
        ⟨7, 8, "Other", 1048576, "S:", "", "", true⟩ CreateOracle.ok)
      = ⟨{ (CreateRamDevice GpuApi.HOSTMEM imdisk (GPURamDrive.new 0 false)
              (CreateArgs.sample (16 * 1024 * 1024))
              ⟨21, AllocOracle.ok, SetupOracle.ok, false, true, 3⟩).state with
            m_clPlatformId := 7, m_clDeviceId := 8, m_MemSize := 1048576,
            m_ServiceName := "Other", m_DeviceId := 4294967295, m_TempFolderParam := true },
          [], Outcome.returned⟩
    ∧ (handleRequest GpuApi.HOSTMEM imdisk
        (CreateRamDevice GpuApi.HOSTMEM imdisk
          (CreateRamDevice GpuApi.HOSTMEM imdisk (GPURamDrive.new 0 false)
            (CreateArgs.sample (16 * 1024 * 1024))
            ⟨21, AllocOracle.ok, SetupOracle.ok, false, true, 3⟩).state
          ⟨7, 8, "Other", 1048576, "S:", "", "", true⟩ CreateOracle.ok).state
        Mem.zero (Round.request 1 0 0)).header.file_size = 1048576
    ∧ (ImdiskUnmountDevice GpuApi.HOSTMEM
        (CreateRamDevice GpuApi.HOSTMEM imdisk
          (CreateRamDevice GpuApi.HOSTMEM imdisk (GPURamDrive.new 0 false)
            (CreateArgs.sample (16 * 1024 * 1024))
            ⟨21, AllocOracle.ok, SetupOracle.ok, false, true, 3⟩).state
          ⟨7, 8, "Other", 1048576, "S:", "", "", true⟩ CreateOracle.ok).state
        false).trace.filter (fun e => e matches Event.ImDiskForceRemoveDevice _)
      = [Event.ImDiskForceRemoveDevice 4294967295] := by
  refine ⟨by decide, by decide, by decide, by decide, by decide, by decide⟩

/-! ## Resource accounting -/

theorem releases_append (r : Resource) (t u : List Event) :
    releases r (t ++ u) = releases r t + releases r u := by
  simp [releases, List.countP_append]

theorem acquisitions_append (r : Resource) (t u : List Event) :
    acquisitions r (t ++ u) = acquisitions r t + acquisitions r u := by
  simp [acquisitions, List.countP_append]

theorem releases_cons (r : Resource) (e e2 : Event) (t : List Event) :
    releases r (e :: e2 :: t) = releases r [e] + releases r (e2 :: t) := by
  simp only [releases, List.countP_cons, List.countP_nil]
  omega

theorem acquisitions_cons (r : Resource) (e e2 : Event) (t : List Event) :
    acquisitions r (e :: e2 :: t) = acquisitions r [e] + acquisitions r (e2 :: t) := by
  simp only [acquisitions, List.countP_cons, List.countP_nil]
  omega

theorem releases_nil (r : Resource) : releases r [] = 0 := rfl

theorem acquisitions_nil (r : Resource) : acquisitions r [] = 0 := rfl

theorem releases_single (r : Resource) (e : Event) :
    releases r [e] =
      match e.released with
      | some res => if res = r then 1 else 0
      | none => 0 := by
  unfold releases
  cases h : e.released with
  | none => simp [List.countP_cons, h]
  | some res =>
    by_cases hr : res = r
    · simp [List.countP_cons, h, hr]
    · simp [List.countP_cons, h, hr]

theorem releases_whenSet (r : Resource) (p : Nat) (e : Event) :
    releases r (whenSet p e) =
      match e.released with
      | some res => slot p res r
      | none => 0 := by
  unfold whenSet slot
  by_cases hp : p = 0
  · simp only [hp, ne_eq, not_true_eq_false, if_false, false_and]
    cases e.released <;> rfl
  · simp only [hp, ne_eq, not_false_eq_true, if_true, true_and]
    exact releases_single r e

theorem acquisitions_single (r : Resource) (e : Event) :
    acquisitions r [e] = if e.acquired = some r then 1 else 0 := by
  unfold acquisitions
  by_cases h : e.acquired = some r
  · simp [List.countP_cons, h]
  · simp [List.countP_cons, h]

theorem acquisitions_whenSet (r : Resource) (p : Nat) (e : Event) :
    acquisitions r (whenSet p e) = if p ≠ 0 ∧ e.acquired = some r then 1 else 0 := by
  unfold whenSet
  by_cases hp : p = 0
  · simp [hp, acquisitions]
  · simp [hp, acquisitions_single]

theorem ifSet_slot (p : Nat) (res r : Resource) :
    (if Resource.ifSet p res = some r then 1 else 0) = slot p res r := by
  unfold Resource.ifSet slot
  by_cases hp : p = 0
  · simp [hp]
  · by_cases hr : res = r
    · simp [hp, hr]
    · simp [hp, hr]

theorem slot_zero (held r : Resource) : slot 0 held r = 0 := by
  simp [slot]

theorem releases_fireStateChange (r : Resource) (s : GPURamDrive) :
    releases r (fireStateChange s) = 0 := by
  unfold fireStateChange
  split <;> rfl

theorem acquisitions_fireStateChange (r : Resource) (s : GPURamDrive) :
    acquisitions r (fireStateChange s) = 0 := by
  unfold fireStateChange
  split <;> rfl

theorem Close_releases (api : GpuApi) (s : GPURamDrive) (r : Resource) :
    releases r (Close api s).trace = holds api s r := by
  unfold Close holds holdsChannel holdsBackend
  cases api <;>
    simp only [releases_append, releases_whenSet, releases_fireStateChange,
      releases_nil, if_true, if_false, reduceCtorEq, releases_cons, releases_single,
      Event.released] <;>
    omega

theorem Close_acquisitions (api : GpuApi) (s : GPURamDrive) (r : Resource) :
    acquisitions r (Close api s).trace = 0 := by
  unfold Close
  cases api <;>
    simp only [acquisitions_append, acquisitions_whenSet,
      acquisitions_fireStateChange, acquisitions_nil, if_true, if_false, reduceCtorEq,
      acquisitions_cons, acquisitions_single, Event.acquired, and_false]

theorem GpuAllocateRam_acquisitions (api : GpuApi) (s : GPURamDrive) (o : AllocOracle)
    (r : Resource) (h : HoldsNothing api s) :
    acquisitions r (GpuAllocateRam api s o).trace
      = holdsBackend api (GpuAllocateRam api s o).state r := by
  obtain ⟨-, -, -, -, -, hb, hg, hq, hc, hcu⟩ := h
  have hcu2 : api = GpuApi.CUDA → s.m_cuDevPtr = 0 := hcu
  cases api <;> unfold GpuAllocateRam holdsBackend <;>
    simp only [reduceCtorEq, if_true, if_false] <;> split_ifs <;>
    simp [acquisitions_append, acquisitions_cons, acquisitions_single, Event.acquired,
      ifSet_slot, slot_zero, hb, hg, hq, hc, *] <;>
    try omega

theorem GpuAllocateRam_releases (api : GpuApi) (s : GPURamDrive) (o : AllocOracle)
    (r : Resource) : releases r (GpuAllocateRam api s o).trace = 0 := by
  cases api <;> unfold GpuAllocateRam <;> simp only [] <;> split_ifs <;>
    simp only [releases_append, releases_cons, releases_single, releases_nil, Event.released]

theorem GpuAllocateRam_holdsChannel (api : GpuApi) (s : GPURamDrive) (o : AllocOracle)
    (r : Resource) : holdsChannel (GpuAllocateRam api s o).state r = holdsChannel s r := by
  rw [GpuAllocateRam_frame]
  rfl

theorem ImdiskSetupComm_acquisitions (K : ImdiskConsts) (s : GPURamDrive)
    (name : String) (o : SetupOracle) (r : Resource)
    (h : s.m_ShmView = 0 ∧ s.m_ShmHandle = 0 ∧ s.m_ShmMutexSrv = 0 ∧ s.m_ShmReqEvent = 0
      ∧ s.m_ShmRespEvent = 0) :
    acquisitions r (ImdiskSetupComm K s name o).trace
      = holdsChannel (ImdiskSetupComm K s name o).state r := by
  obtain ⟨h1, h2, h3, h4, h5⟩ := h
  unfold ImdiskSetupComm holdsChannel
  simp only []
  split_ifs <;>
    simp [acquisitions_append, acquisitions_cons, acquisitions_single, Event.acquired,
      ifSet_slot, slot_zero, h1, h2, h3, h4, h5, *] <;>
    try omega

theorem ImdiskSetupComm_releases (K : ImdiskConsts) (s : GPURamDrive)
    (name : String) (o : SetupOracle) (r : Resource) :
    releases r (ImdiskSetupComm K s name o).trace = 0 := by
  unfold ImdiskSetupComm
  simp only []
  split_ifs <;>
    simp only [releases_append, releases_cons, releases_single, releases_nil, Event.released]

theorem ImdiskSetupComm_holdsBackend (api : GpuApi) (K : ImdiskConsts) (s : GPURamDrive)
    (name : String) (o : SetupOracle) (r : Resource) :
    holdsBackend api (ImdiskSetupComm K s name o).state r = holdsBackend api s r := by
  rw [ImdiskSetupComm_frame]
  rfl

theorem HoldsNothing.of_released {api : GpuApi} {s : GPURamDrive} (h : Released api s) :
    HoldsNothing api s := by
  obtain ⟨h1, h2, h3, h4, h5, h6, h7, h8, h9, -, h11⟩ := h
  exact ⟨h1, h2, h3, h4, h5, h6, h7, h8, h9, h11⟩

theorem HoldsNothing.holdsChannel {api : GpuApi} {s : GPURamDrive} (h : HoldsNothing api s)
    (r : Resource) : holdsChannel s r = 0 := by
  obtain ⟨h1, h2, h3, h4, h5, -⟩ := h
  simp [GpuRamDrive.holdsChannel, h1, h2, h3, h4, h5, slot_zero]

theorem HoldsNothing.holds {api : GpuApi} {s : GPURamDrive} (h : HoldsNothing api s)
    (r : Resource) : holds api s r = 0 := by
  have hc := h.holdsChannel r
  obtain ⟨-, -, -, -, -, h6, h7, h8, h9, h10⟩ := h
  unfold GpuRamDrive.holds
  rw [hc]
  unfold holdsBackend
  cases api
  · simp [h6, slot_zero]
  · simp [h6, h10, slot_zero]
  · simp [h6, h7, h8, h9, slot_zero]

theorem workerSetup_accounts (api : GpuApi) (K : ImdiskConsts) (s : GPURamDrive)
    (name : String) (alloc : AllocOracle) (setup : SetupOracle) (r : Resource)
    (h : HoldsNothing api s) :
    ((workerSetup api K s name alloc setup).outcome.isRaised = true →
      releases r (workerSetup api K s name alloc setup).trace
        = acquisitions r (workerSetup api K s name alloc setup).trace)
    ∧ ((workerSetup api K s name alloc setup).outcome = Outcome.returned →
      releases r (workerSetup api K s name alloc setup).trace = 0
      ∧ acquisitions r (workerSetup api K s name alloc setup).trace
          = holds api (workerSetup api K s name alloc setup).state r) := by
  have hA := GpuAllocateRam_acquisitions api s alloc r h
  have hAr := GpuAllocateRam_releases api s alloc r
  have hAc := GpuAllocateRam_holdsChannel api s alloc r
  have hc0 := h.holdsChannel r
  have hnull : (GpuAllocateRam api s alloc).state.m_ShmView = 0
      ∧ (GpuAllocateRam api s alloc).state.m_ShmHandle = 0
      ∧ (GpuAllocateRam api s alloc).state.m_ShmMutexSrv = 0
      ∧ (GpuAllocateRam api s alloc).state.m_ShmReqEvent = 0
      ∧ (GpuAllocateRam api s alloc).state.m_ShmRespEvent = 0 := by
    rw [GpuAllocateRam_frame]
    exact ⟨h.1, h.2.1, h.2.2.1, h.2.2.2.1, h.2.2.2.2.1⟩
  have hS := ImdiskSetupComm_acquisitions K (GpuAllocateRam api s alloc).state name setup r hnull
  have hSr := ImdiskSetupComm_releases K (GpuAllocateRam api s alloc).state name setup r
  have hSb := ImdiskSetupComm_holdsBackend api K (GpuAllocateRam api s alloc).state name setup r
  have hm1 : releases r [Event.GpuAllocateRam] = 0 := rfl
  have hm2 : acquisitions r [Event.GpuAllocateRam] = 0 := rfl
  have hm3 : releases r [Event.ImdiskSetupComm name] = 0 := rfl
  have hm4 : acquisitions r [Event.ImdiskSetupComm name] = 0 := rfl
  cases hal : (GpuAllocateRam api s alloc).outcome with
  | raised what =>
    rw [workerSetup_alloc_raised api K s name alloc setup what hal]
    refine ⟨fun _ => ?_, fun hx => by simp at hx⟩
    show releases r ([Event.GpuAllocateRam] ++ ((GpuAllocateRam api s alloc).trace
        ++ (Close api (GpuAllocateRam api s alloc).state).trace))
      = acquisitions r ([Event.GpuAllocateRam] ++ ((GpuAllocateRam api s alloc).trace
        ++ (Close api (GpuAllocateRam api s alloc).state).trace))
    simp only [releases_append, acquisitions_append, Close_releases, Close_acquisitions, hm1, hm2,
      hA, hAr, GpuRamDrive.holds, hAc, hc0]
    omega
  | returned =>
    cases hsu : (ImdiskSetupComm K (GpuAllocateRam api s alloc).state name setup).outcome with
    | raised what =>
      rw [workerSetup_setup_raised api K s name alloc setup what hal hsu]
      refine ⟨fun _ => ?_, fun hx => by simp at hx⟩
      show releases r ([Event.GpuAllocateRam] ++ ((GpuAllocateRam api s alloc).trace
          ++ ([Event.ImdiskSetupComm name]
            ++ ((ImdiskSetupComm K (GpuAllocateRam api s alloc).state name setup).trace
              ++ (Close api
                (ImdiskSetupComm K (GpuAllocateRam api s alloc).state name setup).state).trace))))
        = acquisitions r ([Event.GpuAllocateRam] ++ ((GpuAllocateRam api s alloc).trace
          ++ ([Event.ImdiskSetupComm name]
            ++ ((ImdiskSetupComm K (GpuAllocateRam api s alloc).state name setup).trace
              ++ (Close api
                (ImdiskSetupComm K (GpuAllocateRam api s alloc).state name setup).state).trace))))
      simp only [releases_append, acquisitions_append, Close_releases, Close_acquisitions, hm1,
        hm2, hm3, hm4, hA, hAr, hS, hSr, GpuRamDrive.holds, hSb]
      omega
    | returned =>
      rw [workerSetup_returned api K s name alloc setup hal hsu]
      refine ⟨fun hx => by simp [Outcome.isRaised] at hx, fun _ => ⟨?_, ?_⟩⟩
      · show releases r ([Event.GpuAllocateRam] ++ ((GpuAllocateRam api s alloc).trace
            ++ ([Event.ImdiskSetupComm name]
              ++ (ImdiskSetupComm K (GpuAllocateRam api s alloc).state name setup).trace))) = 0
        simp only [releases_append, hm1, hm3, hAr, hSr]
      · show acquisitions r ([Event.GpuAllocateRam] ++ ((GpuAllocateRam api s alloc).trace
            ++ ([Event.ImdiskSetupComm name]
              ++ (ImdiskSetupComm K (GpuAllocateRam api s alloc).state name setup).trace)))
          = holds api (ImdiskSetupComm K (GpuAllocateRam api s alloc).state name setup).state r
        simp only [acquisitions_append, hm2, hm4, hA, hS, GpuRamDrive.holds, hSb]
        omega

theorem ImdiskUnmountDevice_detached_accounts (api : GpuApi) (s : GPURamDrive) (onWorker : Bool)
    (r : Resource) (ht : s.m_GpuThread = Worker.none) :
    releases r (ImdiskUnmountDevice api s onWorker).trace = 0
    ∧ acquisitions r (ImdiskUnmountDevice api s onWorker).trace = 0 := by
  unfold ImdiskUnmountDevice
  by_cases h : s.m_MountPoint.length = 0
  · simp only [h, if_true]
    exact ⟨rfl, rfl⟩
  · simp only [h, if_false, ht, Worker.joinable, Bool.false_and, Bool.false_eq_true]
    cases s.m_TempFolderParam <;> exact ⟨rfl, rfl⟩

theorem ImdiskMountDevice_failed_accounts (api : GpuApi) (s : GPURamDrive) (MountPoint : String)
    (regDeviceId : Nat) (r : Resource) (hj : s.m_GpuThread.joinable = true) :
    releases r (ImdiskMountDevice api s MountPoint false regDeviceId).trace = holds api s r
    ∧ acquisitions r (ImdiskMountDevice api s MountPoint false regDeviceId).trace = 0 := by
  have hk := Close_keeps api
    { s with m_MountPoint := MountPoint, m_DeviceId := regDeviceId, m_GpuThread := Worker.none }
  have hu := ImdiskUnmountDevice_detached_accounts api
    (Close api { s with
      m_MountPoint := MountPoint, m_DeviceId := regDeviceId, m_GpuThread := Worker.none }).state
    false r hk.2.1
  have hr := Close_releases api
    { s with m_MountPoint := MountPoint, m_DeviceId := regDeviceId, m_GpuThread := Worker.none } r
  have ha := Close_acquisitions api
    { s with m_MountPoint := MountPoint, m_DeviceId := regDeviceId, m_GpuThread := Worker.none } r
  have h1 : releases r [Event.ImDiskCreateDeviceEx s.m_ServiceName MountPoint] = 0 := rfl
  have h2 : acquisitions r [Event.ImDiskCreateDeviceEx s.m_ServiceName MountPoint] = 0 := rfl
  have h3 : releases r [Event.threadDetach] = 0 := rfl
  have h4 : acquisitions r [Event.threadDetach] = 0 := rfl
  unfold ImdiskMountDevice
  simp only [Bool.not_false, if_true, hj, Bool.not_true, Bool.false_eq_true, if_false]
  simp only [releases_append, acquisitions_append, h1, h2, h3, h4, hu.1, hu.2, hr, ha]
  constructor
  · show 0 + 0 + holds api s r + 0 = holds api s r
    omega
  · trivial

theorem CreateRamDevice_setup_raised_trace (api : GpuApi) (K : ImdiskConsts) (s : GPURamDrive)
    (a : CreateArgs) (o : CreateOracle) (what : String) (hj : s.m_GpuThread.joinable = false)
    (hw : (workerSetup api K { recordArguments api K s a o with m_GpuThread := Worker.serving }
      a.ServiceName o.alloc o.setup).outcome = Outcome.raised what) :
    (CreateRamDevice api K s a o).trace =
      (if api = GpuApi.CUDA then [Event.getContext a.clDeviceId] else [])
        ++ Event.threadStart ::
          (workerSetup api K { recordArguments api K s a o with m_GpuThread := Worker.serving }
            a.ServiceName o.alloc o.setup).trace
        ++ [Event.threadJoin] := by
  have hj2 : (recordArguments api K s a o).m_GpuThread.joinable = false := by
    rw [recordArguments_eq]
    exact hj
  have hd : (recordArguments api K s a o).m_clDeviceId = a.clDeviceId := by
    rw [recordArguments_eq]
  unfold CreateRamDevice
  simp only [hj2, hw, Bool.false_eq_true, if_false]
  rw [hd]

theorem CreateRamDevice_mount_raised_trace (api : GpuApi) (K : ImdiskConsts) (s : GPURamDrive)
    (a : CreateArgs) (o : CreateOracle) (what : String) (hj : s.m_GpuThread.joinable = false)
    (hw : (workerSetup api K { recordArguments api K s a o with m_GpuThread := Worker.serving }
      a.ServiceName o.alloc o.setup).outcome = Outcome.returned)
    (hm : (ImdiskMountDevice api
          (if o.workerExited then
              workerExit api (workerSetup api K
                { recordArguments api K s a o with m_GpuThread := Worker.serving }
                a.ServiceName o.alloc o.setup).state
            else
              ⟨(workerSetup api K
                { recordArguments api K s a o with m_GpuThread := Worker.serving }
                a.ServiceName o.alloc o.setup).state, [], Outcome.returned⟩).state
          a.MountPoint o.regOk o.regDeviceId).outcome = Outcome.raised what) :
    (CreateRamDevice api K s a o).trace =
      (if api = GpuApi.CUDA then [Event.getContext a.clDeviceId] else [])
        ++ Event.threadStart ::
          (workerSetup api K { recordArguments api K s a o with m_GpuThread := Worker.serving }
            a.ServiceName o.alloc o.setup).trace
        ++ (if o.workerExited then
              workerExit api (workerSetup api K
                { recordArguments api K s a o with m_GpuThread := Worker.serving }
                a.ServiceName o.alloc o.setup).state
            else
              ⟨(workerSetup api K
                { recordArguments api K s a o with m_GpuThread := Worker.serving }
                a.ServiceName o.alloc o.setup).state, [], Outcome.returned⟩).trace
        ++ (ImdiskMountDevice api
          (if o.workerExited then
              workerExit api (workerSetup api K
                { recordArguments api K s a o with m_GpuThread := Worker.serving }
                a.ServiceName o.alloc o.setup).state
            else
              ⟨(workerSetup api K
                { recordArguments api K s a o with m_GpuThread := Worker.serving }
                a.ServiceName o.alloc o.setup).state, [], Outcome.returned⟩).state
          a.MountPoint o.regOk o.regDeviceId).trace := by
  have hj2 : (recordArguments api K s a o).m_GpuThread.joinable = false := by
    rw [recordArguments_eq]
    exact hj
  have hd : (recordArguments api K s a o).m_clDeviceId = a.clDeviceId := by
    rw [recordArguments_eq]
  unfold CreateRamDevice
  simp only [hj2, hw, Bool.false_eq_true, if_false, hm]
  rw [hd]

theorem recordArguments_holdsNothing (api : GpuApi) (K : ImdiskConsts) (s : GPURamDrive)
    (a : CreateArgs) (o : CreateOracle) (w : Worker) (h : HoldsNothing api s) :
    HoldsNothing api { recordArguments api K s a o with m_GpuThread := w } := by
  rw [recordArguments_eq]
  exact h

theorem CreateRamDevice_failure_accounts (api : GpuApi) (K : ImdiskConsts) (s : GPURamDrive)
    (a : CreateArgs) (o : CreateOracle) (r : Resource) (hj : s.m_GpuThread.joinable = false)
    (hf : createFails api o = true) (h : HoldsNothing api s) :
    releases r (CreateRamDevice api K s a o).trace
      = acquisitions r (CreateRamDevice api K s a o).trace := by
  have hn := recordArguments_holdsNothing api K s a o Worker.serving h
  have hacc := workerSetup_accounts api K
    { recordArguments api K s a o with m_GpuThread := Worker.serving } a.ServiceName o.alloc
    o.setup r hn
  have hwr := workerSetup_raised api K
    { recordArguments api K s a o with m_GpuThread := Worker.serving } a.ServiceName o.alloc o.setup
  have hwk := workerSetup_keeps api K
    { recordArguments api K s a o with m_GpuThread := Worker.serving } a.ServiceName o.alloc o.setup
  have ht1 : releases r (if api = GpuApi.CUDA then [Event.getContext a.clDeviceId] else []) = 0 := by
    cases api <;> rfl
  have ht2 : acquisitions r (if api = GpuApi.CUDA then [Event.getContext a.clDeviceId] else [])
      = 0 := by
    cases api <;> rfl
  have hs1 : releases r [Event.threadStart] = 0 := rfl
  have hs2 : acquisitions r [Event.threadStart] = 0 := rfl
  have hj1 : releases r [Event.threadJoin] = 0 := rfl
  have hj2 : acquisitions r [Event.threadJoin] = 0 := rfl
  cases hfs : (allocFails api o.alloc || setupFails o.setup) with
  | true =>
    rw [hfs] at hwr
    obtain ⟨what, hw⟩ := Outcome.exists_of_raised _ hwr
    rw [CreateRamDevice_setup_raised_trace api K s a o what hj hw]
    have hx := hacc.1 hwr
    rw [show ∀ t : List Event, Event.threadStart :: t = [Event.threadStart] ++ t from fun _ => rfl]
    simp only [releases_append, acquisitions_append, ht1, ht2, hs1, hs2, hj1, hj2, hx]
  | false =>
    rw [hfs] at hwr
    have hw := Outcome.eq_returned_of_not_raised _ hwr
    have hreg : o.regOk = false := by
      unfold createFails at hf
      rw [hfs] at hf
      simpa using hf
    have hx := hacc.2 hw
    have hxj : (if o.workerExited then
        workerExit api (workerSetup api K
          { recordArguments api K s a o with m_GpuThread := Worker.serving }
          a.ServiceName o.alloc o.setup).state
      else
        ⟨(workerSetup api K
          { recordArguments api K s a o with m_GpuThread := Worker.serving }
          a.ServiceName o.alloc o.setup).state, [], Outcome.returned⟩).state.m_GpuThread.joinable
        = true := by
      split
      · rfl
      · show (workerSetup api K { recordArguments api K s a o with m_GpuThread := Worker.serving }
          a.ServiceName o.alloc o.setup).state.m_GpuThread.joinable = true
        rw [hwk.2.1]
        rfl
    have hm := ImdiskMountDevice_failed api _ a.MountPoint o.regDeviceId hxj
    obtain ⟨what, hmo⟩ := Outcome.exists_of_raised _ hm.1
    rw [← hreg] at hmo
    have hma := ImdiskMountDevice_failed_accounts api _ a.MountPoint o.regDeviceId r hxj
    rw [CreateRamDevice_mount_raised_trace api K s a o what hj hw hmo, hreg]
    rw [show ∀ t : List Event, Event.threadStart :: t = [Event.threadStart] ++ t from fun _ => rfl]
    simp only [releases_append, acquisitions_append, ht1, ht2, hs1, hs2, hx.1, hx.2, hma.1, hma.2]
    cases hwe : o.workerExited with
    | true =>
      simp only [if_true]
      show 0 + (0 + 0) + releases r (Close api _).trace + holds api (Close api _).state r
        = 0 + (0 + holds api _ r) + acquisitions r (Close api _).trace + 0
      rw [Close_releases, Close_acquisitions, (HoldsNothing.of_released (Close_released api _)).holds r]
      omega
    | false =>
      simp only [Bool.false_eq_true, if_false]
      show 0 + (0 + 0) + 0 + holds api _ r = 0 + (0 + holds api _ r) + 0 + 0
      omega

theorem ImdiskUnmountDevice_holdsNothing (api : GpuApi) (s : GPURamDrive) (onWorker : Bool)
    (h : s.m_GpuThread ≠ Worker.serving → HoldsNothing api s) :
    (ImdiskUnmountDevice api s onWorker).state.m_GpuThread ≠ Worker.serving →
      HoldsNothing api (ImdiskUnmountDevice api s onWorker).state := by
  unfold ImdiskUnmountDevice
  by_cases hm : s.m_MountPoint.length = 0
  · simp only [hm, if_true]
    exact h
  · simp only [hm, if_false]
    cases ht : s.m_GpuThread with
    | none =>
      simp only [Worker.joinable, Bool.false_and, Bool.false_eq_true, if_false]
      intro _
      exact h (by rw [ht]; exact Worker.noConfusion)
    | finished =>
      cases onWorker
      · simp only [Worker.joinable, Bool.and_false, Bool.false_eq_true, if_false]
        intro _
        exact h (by rw [ht]; exact Worker.noConfusion)
      · simp only [Worker.joinable, Bool.and_self, if_true]
        intro _
        exact h (by rw [ht]; exact Worker.noConfusion)
    | serving =>
      cases onWorker
      · simp only [Worker.joinable, Bool.and_false, Bool.false_eq_true, if_false]
        intro _
        exact HoldsNothing.of_released (Close_released api _)
      · simp only [Worker.joinable, Bool.and_self, if_true]
        intro hx
        exact absurd rfl hx

theorem CreateRamDevice_exited_holdsNothing (api : GpuApi) (K : ImdiskConsts) (s : GPURamDrive)
    (a : CreateArgs) (o : CreateOracle) (hj : s.m_GpuThread.joinable = false)
    (hf : createFails api o = false) (hwe : o.workerExited = true) :
    HoldsNothing api (CreateRamDevice api K s a o).state := by
  unfold createFails at hf
  simp only [Bool.or_eq_false_iff, Bool.not_eq_false'] at hf
  have hfs : (allocFails api o.alloc || setupFails o.setup) = false := by
    simp only [Bool.or_eq_false_iff]
    exact hf.1
  have hok := workerSetup_ok api K
    { recordArguments api K s a o with m_GpuThread := Worker.serving } a.ServiceName o.alloc
    o.setup hfs
  obtain ⟨hst, -⟩ := CreateRamDevice_mount api K s a o hj hok.1
  rw [hst, hf.2, ImdiskMountDevice_ok, hwe]
  exact HoldsNothing.of_released (Close_released api _)

theorem Reachable.holdsNothing_of_not_serving {api : GpuApi} {K : ImdiskConsts} {s : GPURamDrive}
    (h : Reachable api K s) : s.m_GpuThread ≠ Worker.serving → HoldsNothing api s := by
  induction h with
  | new d t =>
    intro _
    exact ⟨rfl, rfl, rfl, rfl, rfl, rfl, rfl, rfl, rfl, fun _ => rfl⟩
  | setCallback s c _ ih => exact ih
  | setDriveType s ty _ ih => exact ih
  | setRemovable s b _ ih => exact ih
  | create s a o _ ih =>
    intro hns
    cases hj : s.m_GpuThread.joinable with
    | true =>
      rw [CreateRamDevice_refused api K s a o hj] at hns ⊢
      rw [recordArguments_eq] at hns ⊢
      exact ih hns
    | false =>
      cases hf : createFails api o with
      | true =>
        exact HoldsNothing.of_released (CreateRamDevice_failure api K s a o hj hf).2.1
      | false =>
        cases hwe : o.workerExited with
        | true => exact CreateRamDevice_exited_holdsNothing api K s a o hj hf hwe
        | false =>
          have hs := (CreateRamDevice_success api K s a o hj hf).2.2.1
          rw [hwe] at hs
          exact absurd hs hns
  | unmount s onWorker _ ih => exact ImdiskUnmountDevice_holdsNothing api s onWorker ih
  | workerExit s _ _ _ =>
    intro _
    exact HoldsNothing.of_released (Close_released api _)
  | detachedClose s _ _ =>
    intro _
    exact HoldsNothing.of_released (Close_released api _)

/-! ## Close and failed creates -/

theorem CreateRamDevice_starts_worker (api : GpuApi) (K : ImdiskConsts) (s : GPURamDrive)
    (a : CreateArgs) (o : CreateOracle) (hj : s.m_GpuThread.joinable = false) :
    Event.threadStart ∈ (CreateRamDevice api K s a o).trace := by
  have hj2 : (recordArguments api K s a o).m_GpuThread.joinable = false := by
    rw [recordArguments_eq]
    exact hj
  unfold CreateRamDevice
  simp only [hj2, Bool.false_eq_true, if_false]
  split
  · simp
  · split <;> simp

theorem IsMounted_iff (s : GPURamDrive) :
    IsMounted s = true ↔ (s.m_MountPoint.length ≠ 0 ∧ s.m_ShmView ≠ 0) := by
  simp [IsMounted]

/-- C8: a `CreateRamDevice` call on a reachable object whose thread is not
joinable raises exactly when a failure point is hit (backend allocation, a
step of `ImdiskSetupComm`, or device registration in `ImdiskMountDevice`). In
that case every resource the call acquired (host buffer, device memory, OpenCL
context, queue and buffer, mapping, view, mutex and event handles) is handed
back within the call exactly as often as it was acquired; in the state the
call leaves, the shared view, all channel handles, the backend buffer and the
compute-API objects are null, no mount point is recorded, `IsMounted()` is
false, the thread is not joinable, and a later `CreateRamDevice` call starts a
worker instead of being refused. -/
theorem C8_failed_create_leaves_nothing (api : GpuApi) (K : ImdiskConsts) (s : GPURamDrive)
    (a : CreateArgs) (o : CreateOracle) (a2 : CreateArgs) (o2 : CreateOracle)
    (hreach : Reachable api K s) (hj : s.m_GpuThread.joinable = false) :
    (CreateRamDevice api K s a o).outcome.isRaised = createFails api o
    ∧ (createFails api o = true →
        (∀ r, releases r (CreateRamDevice api K s a o).trace
          = acquisitions r (CreateRamDevice api K s a o).trace)
        ∧ Released api (CreateRamDevice api K s a o).state
        ∧ (CreateRamDevice api K s a o).state.m_MountPoint.length = 0
        ∧ IsMounted (CreateRamDevice api K s a o).state = false
        ∧ (CreateRamDevice api K s a o).state.m_GpuThread.joinable = false
        ∧ Event.threadStart ∈
            (CreateRamDevice api K (CreateRamDevice api K s a o).state a2 o2).trace) := by
  refine ⟨CreateRamDevice_raised_iff api K s a o hj, ?_⟩
  intro hf
  obtain ⟨-, hrel, hth, hmp⟩ := CreateRamDevice_failure api K s a o hj hf
  have hns : s.m_GpuThread ≠ Worker.serving := by
    intro h
    rw [h] at hj
    exact absurd hj (by decide)
  have hhold := hreach.holdsNothing_of_not_serving hns
  have hlen : (CreateRamDevice api K s a o).state.m_MountPoint.length = 0 := by
    rcases hmp with h0 | h0
    · exact h0
    · rw [h0]
      exact hreach.mountPoint_of_not_joinable hj
  have hnj : (CreateRamDevice api K s a o).state.m_GpuThread.joinable = false := by
    rw [hth]
    rfl
  refine ⟨fun r => CreateRamDevice_failure_accounts api K s a o r hj hf hhold, hrel, hlen, ?_,
    hnj, CreateRamDevice_starts_worker api K _ a2 o2 hnj⟩
  simp [IsMounted, hlen]

/-- C8, at a concrete input: on a freshly constructed host-memory object the
buffer 1001 is allocated, the mapping 11 is created, and the channel setup
then finds the mapping name already in use; both are handed back once. -/
theorem C8_failed_create_leaves_nothing_witness :
    Reachable GpuApi.HOSTMEM imdisk (GPURamDrive.new 0 false)
    ∧ (GPURamDrive.new 0 false).m_GpuThread.joinable = false
    ∧ createFails GpuApi.HOSTMEM
        ⟨21, AllocOracle.ok, ⟨11, true, 12, true, 13, true, 14, 15⟩, false, true, 0⟩ = true
    ∧ (CreateRamDevice GpuApi.HOSTMEM imdisk (GPURamDrive.new 0 false) (CreateArgs.sample 4096)
        ⟨21, AllocOracle.ok, ⟨11, true, 12, true, 13, true, 14, 15⟩, false, true, 0⟩).trace
      = [Event.threadStart, Event.GpuAllocateRam, Event.newArray 4096 1001,
          Event.ImdiskSetupComm "TestDrv", Event.CreateFileMapping "Global\\TestDrv" 4198400 11,
          Event.CloseHandle 11, Event.deleteArray 1001, Event.threadJoin]
    ∧ ((CreateRamDevice GpuApi.HOSTMEM imdisk (GPURamDrive.new 0 false) (CreateArgs.sample 4096)
        ⟨21, AllocOracle.ok, ⟨11, true, 12, true, 13, true, 14, 15⟩, false, true, 0⟩).outcome.isRaised
      = createFails GpuApi.HOSTMEM
        ⟨21, AllocOracle.ok, ⟨11, true, 12, true, 13, true, 14, 15⟩, false, true, 0⟩
    ∧ (createFails GpuApi.HOSTMEM
          ⟨21, AllocOracle.ok, ⟨11, true, 12, true, 13, true, 14, 15⟩, false, true, 0⟩ = true →
        (∀ r, releases r
            (CreateRamDevice GpuApi.HOSTMEM imdisk (GPURamDrive.new 0 false)
              (CreateArgs.sample 4096)
              ⟨21, AllocOracle.ok, ⟨11, true, 12, true, 13, true, 14, 15⟩, false, true, 0⟩).trace
          = acquisitions r
            (CreateRamDevice GpuApi.HOSTMEM imdisk (GPURamDrive.new 0 false)
              (CreateArgs.sample 4096)
              ⟨21, AllocOracle.ok, ⟨11, true, 12, true, 13, true, 14, 15⟩, false, true, 0⟩).trace)
        ∧ Released GpuApi.HOSTMEM
          (CreateRamDevice GpuApi.HOSTMEM imdisk (GPURamDrive.new 0 false) (CreateArgs.sample 4096)
            ⟨21, AllocOracle.ok, ⟨11, true, 12, true, 13, true, 14, 15⟩, false, true, 0⟩).state
        ∧ (CreateRamDevice GpuApi.HOSTMEM imdisk (GPURamDrive.new 0 false)
            (CreateArgs.sample 4096)
            ⟨21, AllocOracle.ok, ⟨11, true, 12, true, 13, true, 14, 15⟩, false, true, 0⟩).state.m_MountPoint.length
          = 0
        ∧ IsMounted
            (CreateRamDevice GpuApi.HOSTMEM imdisk (GPURamDrive.new 0 false)
              (CreateArgs.sample 4096)
              ⟨21, AllocOracle.ok, ⟨11, true, 12, true, 13, true, 14, 15⟩, false, true, 0⟩).state
          = false
        ∧ (CreateRamDevice GpuApi.HOSTMEM imdisk (GPURamDrive.new 0 false)
            (CreateArgs.sample 4096)
            ⟨21, AllocOracle.ok, ⟨11, true, 12, true, 13, true, 14, 15⟩, false, true, 0⟩).state.m_GpuThread.joinable
          = false
        ∧ Event.threadStart ∈
            (CreateRamDevice GpuApi.HOSTMEM imdisk
              (CreateRamDevice GpuApi.HOSTMEM imdisk (GPURamDrive.new 0 false)
                (CreateArgs.sample 4096)
                ⟨21, AllocOracle.ok, ⟨11, true, 12, true, 13, true, 14, 15⟩, false, true, 0⟩).state
              (CreateArgs.sample 4096) CreateOracle.ok).trace)) :=
  ⟨Reachable.new 0 false, rfl, by decide, by decide,
    C8_failed_create_leaves_nothing GpuApi.HOSTMEM imdisk (GPURamDrive.new 0 false)
      (CreateArgs.sample 4096)
      ⟨21, AllocOracle.ok, ⟨11, true, 12, true, 13, true, 14, 15⟩, false, true, 0⟩
      (CreateArgs.sample 4096) CreateOracle.ok (Reachable.new 0 false) rfl⟩

/-- C9 fails as stated: a `CreateRamDevice` call with the empty string as mount
point, in which setup and registration succeed and the worker is still
serving, returns normally with the view mapped, and `IsMounted()` is false in
the state it leaves. -/
theorem C9_empty_mount_point_counterexample :
    (CreateRamDevice GpuApi.HOSTMEM imdisk (GPURamDrive.new 0 false)
        ⟨0, 0, "TestDrv", 4096, "", "", "", false⟩ CreateOracle.ok).outcome = Outcome.returned
    ∧ (CreateRamDevice GpuApi.HOSTMEM imdisk (GPURamDrive.new 0 false)
        ⟨0, 0, "TestDrv", 4096, "", "", "", false⟩ CreateOracle.ok).state.m_ShmView = 12
    ∧ (CreateRamDevice GpuApi.HOSTMEM imdisk (GPURamDrive.new 0 false)
        ⟨0, 0, "TestDrv", 4096, "", "", "", false⟩ CreateOracle.ok).state.m_GpuThread
      = Worker.serving
    ∧ IsMounted (CreateRamDevice GpuApi.HOSTMEM imdisk (GPURamDrive.new 0 false)
        ⟨0, 0, "TestDrv", 4096, "", "", "", false⟩ CreateOracle.ok).state = false := by
  refine ⟨by decide, by decide, by decide, by decide⟩

/-- C9, amended: `IsMounted()` returns true if and only if a non-empty mount
point is recorded and the shared view is mapped. It is false on a freshly
constructed object; in the state left by a successful `CreateRamDevice` (thread
not joinable before, no failure point hit, worker still serving) it is true
exactly when the `MountPoint` argument is non-empty; and it is false in every
state in which `ImdiskUnmountDevice` returns. -/
theorem C9_isMounted_characterised (api : GpuApi) (K : ImdiskConsts) (s s0 : GPURamDrive)
    (a : CreateArgs) (o : CreateOracle) (d : Nat) (t onWorker : Bool)
    (hj : s0.m_GpuThread.joinable = false) (hok : createFails api o = false)
    (hserving : o.workerExited = false) :
    (IsMounted s = true ↔ (s.m_MountPoint.length ≠ 0 ∧ s.m_ShmView ≠ 0))
    ∧ IsMounted (GPURamDrive.new d t) = false
    ∧ (CreateRamDevice api K s0 a o).outcome = Outcome.returned
    ∧ (IsMounted (CreateRamDevice api K s0 a o).state = true ↔ a.MountPoint.length ≠ 0)
    ∧ (ImdiskUnmountDevice api s onWorker).outcome = Outcome.returned
    ∧ IsMounted (ImdiskUnmountDevice api s onWorker).state = false := by
  have hc := CreateRamDevice_success api K s0 a o hj hok
  have hv := hc.2.2.2 hserving
  refine ⟨IsMounted_iff s, rfl, hc.1, ?_, ImdiskUnmountDevice_outcome api s onWorker, ?_⟩
  · rw [IsMounted_iff, hc.2.1, hv.1]
    exact ⟨fun h => h.1, fun h => ⟨h, hv.2.1⟩⟩
  · simp [IsMounted, ImdiskUnmountDevice_mountPoint api s onWorker]

/-- C9 amended, at the input of the end-to-end scenario: create on "R:", then
unmount from the caller's thread. -/
theorem C9_isMounted_characterised_witness :
    (GPURamDrive.new 0 false).m_GpuThread.joinable = false
    ∧ createFails GpuApi.HOSTMEM CreateOracle.ok = false
    ∧ CreateOracle.ok.workerExited = false
    ∧ ((IsMounted (GPURamDrive.sampleMounted GpuApi.HOSTMEM 4096) = true ↔
        ((GPURamDrive.sampleMounted GpuApi.HOSTMEM 4096).m_MountPoint.length ≠ 0
          ∧ (GPURamDrive.sampleMounted GpuApi.HOSTMEM 4096).m_ShmView ≠ 0))
      ∧ IsMounted (GPURamDrive.new 0 false) = false
      ∧ (CreateRamDevice GpuApi.HOSTMEM imdisk (GPURamDrive.new 0 false) (CreateArgs.sample 4096)
          CreateOracle.ok).outcome = Outcome.returned
      ∧ (IsMounted (CreateRamDevice GpuApi.HOSTMEM imdisk (GPURamDrive.new 0 false)
          (CreateArgs.sample 4096) CreateOracle.ok).state = true ↔
          (CreateArgs.sample 4096).MountPoint.length ≠ 0)
      ∧ (ImdiskUnmountDevice GpuApi.HOSTMEM (GPURamDrive.sampleMounted GpuApi.HOSTMEM 4096)
          false).outcome = Outcome.returned
      ∧ IsMounted (ImdiskUnmountDevice GpuApi.HOSTMEM
          (GPURamDrive.sampleMounted GpuApi.HOSTMEM 4096) false).state = false) :=
  ⟨rfl, by decide, rfl,
    C9_isMounted_characterised GpuApi.HOSTMEM imdisk
      (GPURamDrive.sampleMounted GpuApi.HOSTMEM 4096) (GPURamDrive.new 0 false)
      (CreateArgs.sample 4096) CreateOracle.ok 0 false false rfl (by decide) rfl⟩

end GpuRamDrive
